import Mathlib

/-!
# Verification of the artifact-tracking and tool-dispatch layer

Shallow embedding of the artifact store, session manager, path guard and
argument-normalizing dispatcher of the `llm-agent` component
(`src/agent.py`, `src/integration/artifacts.py`,
`src/integration/tools_wrapped.py`), together with proofs of the
behavioural properties stated in the specification.

Modelling conventions:
* Python's mutable module state `_SESSION` becomes an explicit state record
  `AState` threaded through every operation.
* The filesystem is a record `FS`: a set of existing directories, a map from
  file path to text contents, and a map from session directory to the parsed
  contents of its `artifacts.json` index (`some none` marks an index file
  that exists but does not parse).  Writes to a directory listed in
  `readOnly` raise, modelling `write_text` failures.
* A Python function that may raise returns `Except Unit α` (or
  `Except String α` when the message matters) paired with the state as
  mutated up to the point of the raise.
* `time.time()`, `uuid4()` and `Path.resolve()` are environment parameters
  (`Env`).
-/

namespace LKB

/-! ## Generic list/string helpers used by the embedding -/

/-- Split a character list on a separator character.  `splitOnChar '/' "a/b"`
gives the path components; models Python's `str.split("/")` /
`os.path` component handling. -/
def splitOnChar (c : Char) : List Char → List (List Char)
  | [] => [[]]
  | x :: xs =>
    let r := splitOnChar c xs
    if x = c then [] :: r
    else
      match r with
      | [] => [[x]]
      | g :: gs => (x :: g) :: gs

/-- Association-list lookup (first match), models Python dict access. -/
def getAssoc {α : Type} (l : List (String × α)) (k : String) : Option α :=
  match l with
  | [] => none
  | (k', v) :: rest => if k' = k then some v else getAssoc rest k

/-- Association-list update: replaces the binding of `k`, or appends one.
Models assignment `d[k] = v` on a Python dict / writing one file of a
path-indexed store. -/
def setAssoc {α : Type} (l : List (String × α)) (k : String) (v : α) :
    List (String × α) :=
  match l with
  | [] => [(k, v)]
  | (k', v') :: rest => if k' = k then (k, v) :: rest else (k', v') :: setAssoc rest k v

/-- Boolean infix (contiguous sublist) test; models Python's
`needle in haystack` on strings (on the underlying character lists). -/
def isInfixB (needle : List Char) : List Char → Bool
  | [] => needle.isPrefixOf []
  | c :: rest => needle.isPrefixOf (c :: rest) || isInfixB needle rest

/-- Little-endian decimal digits of a natural number, structurally
recursive on a fuel argument (`decDigitsAux n n` agrees with Mathlib's
`Nat.digits 10 n`, see `decDigitsAux_eq_digits`). -/
def decDigitsAux : Nat → Nat → List Nat
  | 0, _ => []
  | fuel + 1, n => if n = 0 then [] else n % 10 :: decDigitsAux fuel (n / 10)

def decDigits (n : Nat) : List Nat := decDigitsAux n n

/-- Decimal representation of a natural number; models Python's `str(i)`
for a non-negative integer (and `f"{i}"` in an f-string). -/
def decRepr (n : Nat) : String :=
  if n = 0 then "0" else String.mk ((decDigits n).reverse.map Nat.digitChar)

/-- Representation of an integer, models Python's `str`/f-string on `int`. -/
def intRepr (n : Int) : String :=
  if n < 0 then "-" ++ decRepr n.natAbs else decRepr n.natAbs

/-- Lowercase a string (ASCII case fold); models Python's `str.lower()`. -/
def lowerStr (s : String) : String := String.mk (s.data.map Char.toLower)

/-- Strip leading and trailing whitespace; models Python's `str.strip()`. -/
def stripStr (s : String) : String :=
  String.mk (((s.data.dropWhile Char.isWhitespace).reverse.dropWhile
    Char.isWhitespace).reverse)

/-! ## Path helpers (POSIX paths as strings)

These model the small slice of `pathlib` / `os.path` behaviour the code
relies on: component split on `/`, `Path.parent`, `Path.name`,
`Path.stem` / `Path.suffix`, `/`-join, `Path.is_absolute`, and the success
condition of `Path.relative_to`. -/

/-- The `/`-separated components of a path (an absolute path starts with an
empty component). -/
def pathComps (p : String) : List (List Char) := splitOnChar '/' p.data

/-- Final path component; models `Path(p).name` / `os.path.basename(p)`. -/
def pathName (p : String) : String := String.mk ((pathComps p).getLastD [])

/-- Parent directory; models `Path(p).parent` (with `Path(".")` rendered as
`""`, consistent with `pathJoin` below, where Python's `Path(".") / x`
is `Path(x)`). -/
def pathParent (p : String) : String :=
  match (pathComps p).dropLast with
  | [] => ""
  | [[]] => "/"
  | gs => String.mk (List.intercalate ['/'] gs)

/-- Join a parent directory and an entry name; models `parent / name`. -/
def pathJoin (parent name : String) : String :=
  if parent = "" then name
  else if parent = "/" then "/" ++ name
  else parent ++ "/" ++ name

/-- Does the path start with `/`?  Models `Path.is_absolute()` (POSIX). -/
def isAbsolute (p : String) : Bool := p.data.headI = '/'

/-- Success condition of `rp.relative_to(root)`: the components of `root`
are a prefix of the components of `rp`. -/
def isUnder (rp root : String) : Bool := (pathComps root).isPrefixOf (pathComps rp)

/-- Models `Path.stem` and `Path.suffix` of an entry name: split at the last dot,
provided it is neither the leading character nor the final one (pathlib's
rule: `.bashrc` and `name.` have empty suffixes). -/
def stemSuffix (name : List Char) : List Char × List Char :=
  match name.reverse.findIdx? (· = '.') with
  | some j =>
    let i := name.length - 1 - j
    if 0 < i ∧ i < name.length - 1 then (name.take i, name.drop i) else (name, [])
  | none => (name, [])

/-! ## Data model: artifacts, filesystem, session state, environment -/

/-- One artifact record, as in `@dataclass Artifact` of `artifacts.py`
(`created_at: float` modelled as a natural-number timestamp). -/
structure Artifact where
  id : String
  label : Option String
  path : String
  type : Option String
  created_at : Nat
deriving DecidableEq

/-- Filesystem model.  `indexes` maps a session directory to the parsed
contents of its `artifacts.json` (`some none`: the file exists but fails to
parse).  Writing an index into a directory listed in `readOnly` raises,
modelling a failing `Path.write_text`. -/
structure FS where
  dirs : List String
  files : List (String × String)
  indexes : List (String × Option (List Artifact))
  readOnly : List String
deriving DecidableEq

/-- The module state `_SESSION = {"run_dir": ..., "registry": ...}`
together with the filesystem it acts on. -/
structure AState where
  fs : FS
  runDir : Option String
  registry : List Artifact
deriving DecidableEq

/-- Environment inputs of one call: the configured outputs base directory
(`AGENT_OUTPUT_DIR` or the repository default), the current `time.time()`,
the fresh id `str(uuid.uuid4())[:8]`, and the OS path resolver
`str(Path(p).resolve())` (`none`: `resolve` raises). -/
structure Env where
  outBase : String
  now : Nat
  newId : String
  resolvePath : String → Option String

/-- Models `Path.mkdir(parents=True, exist_ok=True)`. -/
def mkdirFS (fs : FS) (d : String) : FS :=
  if d ∈ fs.dirs then fs else { fs with dirs := d :: fs.dirs }

/-- Write `dir/artifacts.json`; raises (`.error`) when the directory is
read-only. -/
def writeIndexFS (fs : FS) (d : String) (content : List Artifact) : Except Unit FS :=
  if d ∈ fs.readOnly then .error ()
  else .ok { fs with indexes := setAssoc fs.indexes d (some content) }

/-- Read the parsed contents of `dir/artifacts.json`:
`none` = no such file, `some none` = present but unparseable,
`some (some l)` = parses to the artifact list `l`. -/
def lookupIndex (fs : FS) (d : String) : Option (Option (List Artifact)) :=
  getAssoc fs.indexes d

/-- Does a path exist (as a directory or a regular file)?
Models `Path.exists()`. -/
def pathExists (fs : FS) (p : String) : Bool :=
  decide (p ∈ fs.dirs) || (getAssoc fs.files p).isSome

/-! ## `artifacts.py` operations -/

/-- Function `get_run_dir()`: return the current session directory, lazily creating
a default one.  In the `None` branch the source sets `_SESSION["run_dir"]`
and then calls `_save_registry()`; that inner call's own `get_run_dir()`
returns the just-set directory, so it is inlined here as a direct index
write (which may raise). -/
def get_run_dir (env : Env) (s : AState) : Except Unit String × AState :=
  match s.runDir with
  | some rd => (.ok rd, s)
  | none =>
    let fs1 := mkdirFS s.fs env.outBase
    let rd := env.outBase ++ "/session_" ++ decRepr env.now
    let fs2 := mkdirFS fs1 rd
    let s1 : AState := { fs := fs2, runDir := some rd, registry := s.registry }
    match writeIndexFS s1.fs rd s1.registry with
    | .ok fs3 => (.ok rd, { s1 with fs := fs3 })
    | .error _ => (.error (), s1)

/-- Function `_save_registry()`: serialize the in-memory registry to
`run_dir/artifacts.json`.  The write may raise. -/
def save_registry (env : Env) (s : AState) : Except Unit Unit × AState :=
  match get_run_dir env s with
  | (.ok rd, s1) =>
    match writeIndexFS s1.fs rd s1.registry with
    | .ok fs2 => (.ok (), { s1 with fs := fs2 })
    | .error _ => (.error (), s1)
  | (.error e, s1) => (.error e, s1)

/-- Function `_load_registry()`: if the current session directory has a parseable
index, replace the in-memory registry with its contents; otherwise (missing
file, or any parse exception) set the registry to `[]`. -/
def load_registry (env : Env) (s : AState) : Except Unit (List Artifact) × AState :=
  match get_run_dir env s with
  | (.ok rd, s1) =>
    match lookupIndex s1.fs rd with
    | some (some arts) => (.ok arts, { s1 with registry := arts })
    | some none => (.ok [], { s1 with registry := [] })
    | none => (.ok [], { s1 with registry := [] })
  | (.error e, s1) => (.error e, s1)

/-- Function `start_session(run_dir=None, label=None)`: pick or build the session
directory, create it, reset the registry to `[]` and persist the empty
index. -/
def start_session (env : Env) (runDirArg label : Option String) (s : AState) :
    Except Unit String × AState :=
  let fs1 := mkdirFS s.fs env.outBase
  let rd :=
    match runDirArg with
    | some r => r
    | none =>
      match label with
      | some l => env.outBase ++ "/session_" ++ l ++ "_" ++ decRepr env.now
      | none => env.outBase ++ "/session_" ++ decRepr env.now
  let fs2 := mkdirFS fs1 rd
  let s1 : AState := { fs := fs2, runDir := some rd, registry := [] }
  match save_registry env s1 with
  | (.ok _, s2) => (.ok rd, s2)
  | (.error e, s2) => (.error e, s2)

/-- Function `switch_session(run_dir)`: create the directory if absent, make it
current, then call `_load_registry()`. -/
def switch_session (env : Env) (rd : String) (s : AState) :
    Except Unit String × AState :=
  let fs1 := mkdirFS s.fs rd
  let s1 : AState := { s with fs := fs1, runDir := some rd }
  match load_registry env s1 with
  | (.ok _, s2) => (.ok rd, s2)
  | (.error e, s2) => (.error e, s2)

/-- The artifact built by `register_artifact`. -/
def mkArtifact (env : Env) (rp : String) (type label : Option String) : Artifact :=
  { id := env.newId, label := label, path := rp, type := type, created_at := env.now }

/-- Function `register_artifact(path, type, label)`: resolve the path, append a
fresh entry to the in-memory registry, then `_save_registry()`.  A raise in
`Path.resolve` or in the index write propagates (`.error`); the appended
entry survives in the returned state in the latter case because the append
happens first. -/
def register_artifact (env : Env) (path : String) (type label : Option String)
    (s : AState) : Except Unit String × AState :=
  match env.resolvePath path with
  | none => (.error (), s)
  | some rp =>
    let a := mkArtifact env rp type label
    let s1 := { s with registry := s.registry ++ [a] }
    match save_registry env s1 with
    | (.ok _, s2) => (.ok a.id, s2)
    | (.error _, s2) => (.error (), s2)

/-- The dict `{"id", "label", "path", "type"}` built by `list_artifacts`
and `search_artifacts` (`a.label or ""`, `a.type or ""`). -/
structure ArtifactView where
  id : String
  label : String
  path : String
  type : String
deriving DecidableEq

def viewOf (a : Artifact) : ArtifactView :=
  { id := a.id, label := a.label.getD "", path := a.path, type := a.type.getD "" }

/-- The filter `if artifact_type and a.type != artifact_type: continue`
(`artifact_type` falsy — `None` or `""` — disables filtering). -/
def typeFilterKeep (artifact_type : Option String) (a : Artifact) : Bool :=
  match artifact_type with
  | none => true
  | some t => if t = "" then true else a.type = some t

/-- Function `list_artifacts(artifact_type=None)`: reload from disk when the
in-memory registry is falsy (empty), then filter and project. -/
def list_artifacts (env : Env) (artifact_type : Option String) (s : AState) :
    Except Unit (List ArtifactView) × AState :=
  if s.registry = [] then
    match load_registry env s with
    | (.ok arts, s1) => (.ok ((arts.filter (typeFilterKeep artifact_type)).map viewOf), s1)
    | (.error e, s1) => (.error e, s1)
  else (.ok ((s.registry.filter (typeFilterKeep artifact_type)).map viewOf), s)

/-- The per-entry test of `resolve_artifact`'s loop:
`a.id == q or (a.label and a.label == q)` (a falsy — `None` or empty —
label never matches). -/
def matchesQuery (a : Artifact) (q : String) : Bool :=
  a.id = q || (match a.label with
    | some l => decide (l ≠ "") && decide (l = q)
    | none => false)

/-- Function `resolve_artifact(id_or_label)`: reload when the registry is empty,
then return the path of the first entry (in insertion order) whose id or
truthy label equals the query, else `None`. -/
def resolve_artifact (env : Env) (q : String) (s : AState) :
    Except Unit (Option String) × AState :=
  if s.registry = [] then
    match load_registry env s with
    | (.ok arts, s1) => (.ok ((arts.find? (fun a => matchesQuery a q)).map (·.path)), s1)
    | (.error e, s1) => (.error e, s1)
  else (.ok ((s.registry.find? (fun a => matchesQuery a q)).map (·.path)), s)

/-- The per-entry test of `search_artifacts`:
`name_substring.lower() in os.path.basename(a.path).lower()`. -/
def searchHit (ns : String) (a : Artifact) : Bool :=
  isInfixB (lowerStr ns).data (lowerStr (pathName a.path)).data

/-- Function `search_artifacts(name_substring)`: reload when the registry is empty,
then keep the entries whose basename contains the (case-folded)
substring. -/
def search_artifacts (env : Env) (ns : String) (s : AState) :
    Except Unit (List ArtifactView) × AState :=
  if s.registry = [] then
    match load_registry env s with
    | (.ok arts, s1) => (.ok ((arts.filter (searchHit ns)).map viewOf), s1)
    | (.error e, s1) => (.error e, s1)
  else (.ok ((s.registry.filter (searchHit ns)).map viewOf), s)

/-! ## `ensure_unique_path` -/

/-- The candidate file name probed at step `i`:
`path.parent / f"{stem}_{i}{suffix}"`. -/
def mkCand (parent stem suffix : String) (i : Nat) : String :=
  pathJoin parent (stem ++ "_" ++ decRepr i ++ suffix)

/-- The `while True` probe loop of `ensure_unique_path`, with an explicit
fuel bound.  `probe_exhaustive` below shows that fuel
`fs.dirs.length + fs.files.length + 1` always finds a free candidate, so
the fuel-exhausted base case is unreachable at the fuel
`ensure_unique_path` supplies. -/
def probeLoop (fs : FS) (parent stem suffix : String) : Nat → Nat → String
  | 0, i => mkCand parent stem suffix i
  | fuel + 1, i =>
    if pathExists fs (mkCand parent stem suffix i) then
      probeLoop fs parent stem suffix fuel (i + 1)
    else mkCand parent stem suffix i

/-- Function `ensure_unique_path(requested_path)`: create the parent directory,
return the path unchanged if it does not exist, otherwise probe
`name_1.ext`, `name_2.ext`, … until an unused path is found. -/
def ensure_unique_path (fs : FS) (requested : String) : String × FS :=
  if pathExists (mkdirFS fs (pathParent requested)) requested then
    (probeLoop (mkdirFS fs (pathParent requested)) (pathParent requested)
      (String.mk (stemSuffix (pathName requested).data).1)
      (String.mk (stemSuffix (pathName requested).data).2)
      ((mkdirFS fs (pathParent requested)).dirs.length +
        (mkdirFS fs (pathParent requested)).files.length + 1) 1,
     mkdirFS fs (pathParent requested))
  else (requested, mkdirFS fs (pathParent requested))

/-- Create an (empty) file at `p`; models the caller writing the file the
allocator returned. -/
def createFile (fs : FS) (p : String) : FS :=
  { fs with files := (p, "") :: fs.files }

/-- A sequence of `ensure_unique_path` calls in which the caller creates
each returned file before the next request (the intended single-threaded
usage). -/
def allocSeq (fs : FS) : List String → List String
  | [] => []
  | req :: reqs =>
    let r := (ensure_unique_path fs req).1
    r :: allocSeq (createFile (ensure_unique_path fs req).2 r) reqs

/-! ## `artifacts_read_text` (`tools_wrapped.py`) -/

def accessDeniedMsg : String := "Access denied: path is outside outputs directory."

/-- The candidate `Path(p or id_or_path)`, made absolute against the session
directory when relative (`_get_run_dir() / candidate`). -/
def readCandidate (env : Env) (id_or_path : String) (p? : Option String)
    (s : AState) : Except Unit String × AState :=
  let cand0 :=
    match p? with
    | some p => if p = "" then id_or_path else p
    | none => id_or_path
  if isAbsolute cand0 then (.ok cand0, s)
  else
    match get_run_dir env s with
    | (.ok rd, s2) => (.ok (pathJoin rd cand0), s2)
    | (.error e, s2) => (.error e, s2)

/-- Function `artifacts_read_text(id_or_path, max_bytes=16384)`: resolve via the
registry with the raw argument as path fallback, absolutize, resolve;
refuse when the resolved path is not under the outputs-root ancestor
(`run_dir.resolve().parent`, resolved again) — any exception inside that
`try` also yields the denial sentinel; then check existence and read up to
`int(max(1, min(max_bytes, 2_000_000)))` bytes, flagging truncation.
(OS-level read errors — the final `except` branch — are outside the
filesystem model, which cannot fail on a present file.) -/
def artifacts_read_text (env : Env) (id_or_path : String) (max_bytes : Int)
    (s : AState) : Except Unit String × AState :=
  match resolve_artifact env id_or_path s with
  | (.error e, s1) => (.error e, s1)
  | (.ok p?, s1) =>
    match readCandidate env id_or_path p? s1 with
    | (.error e, s2) => (.error e, s2)
    | (.ok cand, s2) =>
      match env.resolvePath cand with
      | none => (.ok "Invalid path.", s2)
      | some rp =>
        match get_run_dir env s2 with
        | (.error _, s3) => (.ok accessDeniedMsg, s3)
        | (.ok rd, s3) =>
          match env.resolvePath rd with
          | none => (.ok accessDeniedMsg, s3)
          | some rdr =>
            match env.resolvePath (pathParent rdr) with
            | none => (.ok accessDeniedMsg, s3)
            | some rootr =>
              if ¬ isUnder rp rootr then (.ok accessDeniedMsg, s3)
              else
                match getAssoc s3.fs.files rp with
                | none => (.ok "File not found.", s3)
                | some content =>
                  let n : Int := max 1 (min max_bytes 2000000)
                  let dataChars := content.data.take n.toNat
                  let text := String.mk dataChars
                  if (dataChars.length : Int) ≥ max_bytes then
                    (.ok ("(truncated to " ++ intRepr max_bytes ++ " bytes)\n" ++ text), s3)
                  else (.ok text, s3)

/-! ## Dispatcher value model (`agent.py`)

Python argument values as passed by the LLM layer: `None`, strings,
ints, floats (as rationals), bools, and lists of strings (the only list
arguments the schemas use). -/

inductive Value where
  | none
  | str (s : String)
  | int (n : Int)
  | float (q : Rat)
  | bool (b : Bool)
  | list (xs : List String)
deriving DecidableEq

/-- An argument dictionary (Python dicts are insertion-ordered with unique
keys; lookups take the first binding). -/
abbrev Dict := List (String × Value)

/-- Python truthiness of a `Value`. -/
def truthy : Value → Bool
  | .none => false
  | .str s => s ≠ ""
  | .int n => n ≠ 0
  | .float q => q ≠ 0
  | .bool b => b
  | .list xs => xs ≠ []

/-- Python's `x or d` on values. -/
def pyOr (v d : Value) : Value := if truthy v then v else d

/-- The local helper `pick(keys, default=None)` of `_normalize_args`:
first key present in the dict with a non-`None` value wins. -/
def pick (a : Dict) : List String → Value → Value
  | [], dflt => dflt
  | k :: ks, dflt =>
    match getAssoc a k with
    | some v => if v = .none then pick a ks dflt else v
    | none => pick a ks dflt

/-- Python's `bool(x)`. -/
def pyBool (v : Value) : Value := .bool (truthy v)

/-- Parse a (non-empty, all-digit) decimal numeral. -/
def parseDigits : List Char → Option Nat
  | [] => Option.none
  | cs => cs.foldl (fun acc? c =>
      match acc? with
      | Option.none => Option.none
      | some acc => if c.isDigit then some (acc * 10 + (c.toNat - '0'.toNat)) else Option.none)
      (some 0)

/-- Python's `int(s)` on a string: optional sign followed by digits, else raises. -/
def pyIntStr (s : String) : Option Int :=
  match s.data with
  | '-' :: rest => (parseDigits rest).map (fun n => -(n : Int))
  | '+' :: rest => (parseDigits rest).map (fun n => (n : Int))
  | cs => (parseDigits cs).map (fun n => (n : Int))

/-- Truncation of a rational toward zero, as `int()` applied to a float. -/
def ratTrunc (q : Rat) : Int := if 0 ≤ q then ⌊q⌋ else -⌊-q⌋

/-- Python's `int(x)`: identity on ints, `True ↦ 1 / False ↦ 0`, truncation on
floats, numeral parsing on strings; raises otherwise. -/
def pyInt : Value → Except String Value
  | .int n => .ok (.int n)
  | .bool b => .ok (.int (if b then 1 else 0))
  | .float q => .ok (.int (ratTrunc q))
  | .str s =>
    match pyIntStr s with
    | some n => .ok (.int n)
    | Option.none => .error ("invalid literal for int() with base 10: " ++ s)
  | .none => .error "int() argument must not be None"
  | .list _ => .error "int() argument must not be a list"

/-- Python's `float(x)`: identity on floats, promotion of ints and bools; numeric
string parsing is not modelled (treated as a raise, which the dispatcher
catches like any other exception); raises on the rest. -/
def pyFloat : Value → Except String Value
  | .float q => .ok (.float q)
  | .int n => .ok (.float (n : Rat))
  | .bool b => .ok (.float (if b then 1 else 0))
  | .str s => .error ("could not convert string to float: " ++ s)
  | .none => .error "float() argument must not be None"
  | .list _ => .error "float() argument must not be a list"

/-- The `mutations` handling of `apply_protein_mutations` /
`generate_comprehensive_prediction`:
`muts = pick(["mutations"]) or []`, then a comma-split of a string value
(`[m.strip() for m in muts.split(",") if m.strip()]`). -/
def splitMutations (v : Value) : Value :=
  match pyOr v (.list []) with
  | .str s =>
    .list (((splitOnChar ',' s.data).map (fun cs => stripStr (String.mk cs))).filter
      (fun m => m ≠ ""))
  | w => w

/-- Function `_normalize_args(name, args)` of `agent.py`: map legacy schema argument
names to the wrapper signatures.  Branches appear in source order; a name
with no explicit mapping passes its arguments through unchanged.  The
coercions `int(...)` / `float(...)` may raise, hence the `Except`. -/
def normalize_args (name : String) (args : Dict) : Except String Dict :=
  let a := args
  if name = "find_uniprot" then
    .ok [("gene", pyOr (pick a ["gene", "query", "gene_name"] .none) (.str "")),
         ("species", pick a ["species", "organism"] (.str "human"))]
  else if name = "download_uniprot_fasta" then
    .ok [("gene", pyOr (pick a ["gene", "gene_name", "query"] .none) (.str "")),
         ("species", pick a ["species", "organism"] (.str "human")),
         ("output_file", pick a ["output_file", "filename", "output", "output_excel",
            "output_png"] (.str "protein.fasta"))]
  else if name = "mutate_replace" then
    .ok [("fasta_file", pyOr (pick a ["fasta_file", "gene", "input", "file"] .none) (.str "")),
         ("position", pick a ["position", "pos"] (.int 1)),
         ("new_aa", pyOr (pick a ["new_aa", "aa", "aa_new"] .none) (.str "A")),
         ("output_file", pick a ["output_file", "output", "filename"] (.str "mutated.fasta"))]
  else if name = "mutate_delete" then
    .ok [("fasta_file", pyOr (pick a ["fasta_file", "gene", "input", "file"] .none) (.str "")),
         ("start", pick a ["start", "from", "pos"] (.int 1)),
         ("end", pick a ["end", "to"] (pick a ["start", "from", "pos"] (.int 1))),
         ("output_file", pick a ["output_file", "output", "filename"] (.str "mutated.fasta"))]
  else if name = "mutate_insert" then
    .ok [("fasta_file", pyOr (pick a ["fasta_file", "gene", "input", "file"] .none) (.str "")),
         ("position", pick a ["position", "pos"] (.int 1)),
         ("insert_seq", pyOr (pick a ["insert_seq", "ins_aa", "seq", "insert"] .none) (.str "G")),
         ("output_file", pick a ["output_file", "output", "filename"] (.str "mutated.fasta"))]
  else if name = "mutate_truncate" then
    .ok [("fasta_file", pyOr (pick a ["fasta_file", "gene", "input", "file"] .none) (.str "")),
         ("position", pick a ["position", "pos"] (.int 1)),
         ("output_file", pick a ["output_file", "output", "filename"] (.str "mutated.fasta"))]
  else if name = "get_gene_variants_excel" then
    .ok [("gene", pyOr (pick a ["gene", "query"] .none) (.str "")),
         ("output_file", pick a ["output_file", "output_excel", "filename"] (.str "variants.xlsx"))]
  else if name = "plot_mammalian_tree" then
    .ok [("species_list", pyOr (pick a ["species_list", "species", "list"] (.list [])) (.list [])),
         ("output_file", pick a ["output_file", "output_png", "filename"] (.str "mammal_tree.png"))]
  else if name = "build_phylo_tree_nj" then
    .ok [("aligned_fasta", pyOr (pick a ["aligned_fasta", "alignment_fasta", "input",
            "fasta"] .none) (.str "")),
         ("output_file", pick a ["output_file", "output_prefix", "filename"] (.str "tree_nj.png"))]
  else if name = "build_phylo_tree_ml" then
    .ok [("aligned_fasta", pyOr (pick a ["aligned_fasta", "alignment_fasta", "input",
            "fasta"] .none) (.str "")),
         ("output_file", pick a ["output_file", "output_prefix", "filename"] (.str "tree_ml.png"))]
  else if name = "generate_horvath_gene_report" ∨ name = "generate_phenoage_gene_report" ∨
      name = "generate_brunet_gene_report" ∨ name = "generate_hannum_gene_report" then
    .ok [("gene_query", pyOr (pick a ["gene_query", "gene", "gene_symbol", "query"] .none)
            (.str "")),
         ("output_dir", pick a ["output_dir"] (.str "."))]
  else if name = "generate_mammal_report" then
    .ok [("query", pyOr (pick a ["species_query", "query"] .none) (.str "")),
         ("output_dir", pick a ["output_dir"] (.str "."))]
  else if name = "get_reactome_pathways" then
    .ok [("query", pyOr (pick a ["query", "gene", "gene_symbol"] .none) (.str "")),
         ("save_report", pyBool (pick a ["save_report"] (.bool true)))]
  else if name = "get_go_annotation" then
    .ok [("query", pyOr (pick a ["query", "gene", "gene_symbol"] .none) (.str ""))]
  else if name = "get_drug_info" then
    .ok [("query", pyOr (pick a ["query", "gene", "gene_symbol"] .none) (.str ""))]
  else if name = "get_uniprot_features" then
    .ok [("gene", pyOr (pick a ["gene", "query", "gene_symbol"] .none) (.str "")),
         ("organism", pick a ["organism", "species"] (.str "human"))]
  else if name = "get_protein_function" then
    .ok [("gene", pyOr (pick a ["gene", "query", "gene_symbol"] .none) (.str "")),
         ("organism", pick a ["organism", "species"] (.str "human"))]
  else if name = "generate_gene_report_pdf" then
    .ok [("gene", pyOr (pick a ["gene", "query", "gene_symbol"] .none) (.str "")),
         ("output_file", pick a ["output_file", "filename", "output"] (.str "gene_report.pdf"))]
  else if name = "get_hpa_html" ∨ name = "fetch_and_extract_hpa" then
    .ok [("gene", pyOr (pick a ["gene", "query", "gene_symbol"] .none) (.str "")),
         ("output_dir", pick a ["output_dir"] (.str "."))]
  else if name = "apply_protein_mutations" then
    .ok [("fasta_file", pyOr (pick a ["fasta_file", "input", "file"] .none) (.str "")),
         ("mutations", splitMutations (pick a ["mutations"] .none)),
         ("output_file", pick a ["output_file", "filename", "output"] (.str "mutated.fasta")),
         ("report_file", pick a ["report_file", "report", "log"] (.str "mutations_report.txt"))]
  else if name = "compare_solubility_and_pI" then
    .ok [("wt_fasta", pyOr (pick a ["wt_fasta", "wt", "wildtype", "wild_type"] .none) (.str "")),
         ("mut_fasta", pyOr (pick a ["mut_fasta", "mut", "mutant"] .none) (.str "")),
         ("output_file", pick a ["output_file", "filename", "output"]
            (.str "solubility_pI_comparison.txt"))]
  else if name = "structural_alignment" then
    .ok [("pdb1_path", pyOr (pick a ["pdb1_path", "pdb_ref", "ref"] .none) (.str "")),
         ("pdb2_path", pyOr (pick a ["pdb2_path", "pdb_mob", "mob"] .none) (.str "")),
         ("save_aligned", pyBool (pick a ["save_aligned"] (.bool true))),
         ("out1", pick a ["out1", "aligned_ref"] (.str "aligned_ref.pdb")),
         ("out2", pick a ["out2", "aligned_mob"] (.str "aligned_mob.pdb"))]
  else if name = "compare_stability_simple" then
    .ok [("pdb_wt", pyOr (pick a ["pdb_wt", "wt", "ref"] .none) (.str "")),
         ("pdb_mut", pyOr (pick a ["pdb_mut", "mut", "mob"] .none) (.str "")),
         ("report_name", pick a ["report_name", "output", "filename"]
            (.str "stability_comparison.txt"))]
  else if name = "download_pdb_structures_for_protein" then
    .ok [("gene", pyOr (pick a ["gene", "protein_name", "query"] .none) (.str "")),
         ("organism", pick a ["organism", "species"] (.str "human"))]
  else if name = "smart_visualize" then
    .ok [("pdb_file", pyOr (pick a ["pdb_file", "pdb", "input"] .none) (.str "")),
         ("output_html", pick a ["output_html", "output", "filename"] (.str "viewer.html")),
         ("background", pick a ["background", "bg"] (.str "white"))]
  else if name = "fetch_articles_structured" ∨ name = "fetch_articles_detailed_log" then do
    let np ← pyInt (pick a ["num_pdfs", "pdfs"] (.int 5))
    let mc ← pyInt (pick a ["max_checked", "max"] (.int 300))
    let dl ← pyFloat (pick a ["delay", "sleep"] (.float (5 / 2)))
    .ok [("query", pyOr (pick a ["query", "q"] .none) (.str "")),
         ("num_pdfs", np), ("max_checked", mc), ("delay", dl)]
  else if name = "generate_comprehensive_prediction" then
    .ok [("protein_name", pyOr (pick a ["protein_name", "gene", "query"] .none) (.str "")),
         ("mutations", splitMutations (pick a ["mutations"] .none))]
  else
    .ok a

/-! ## `_execute_function` (`agent.py`) -/

/-- A registered tool implementation: a keyword-argument call that either
returns a value or raises (with `str(e)` as the message). -/
abbrev ToolFn := Dict → Except String Value

/-- What `_execute_function` returns: either the tool's native return
value, or the structured error dict `{"error": msg}`. -/
inductive PyObj where
  | val (v : Value)
  | errDict (msg : String)
deriving DecidableEq

/-- Function `_execute_function(function_name, arguments)`: unknown names yield the
`Unknown function` error dict; any exception from argument normalization
or the tool call is caught and yields the `Error executing` error dict; a
successful call returns the tool's result unchanged. -/
def execute_function (fmap : List (String × ToolFn)) (name : String)
    (args : Dict) : PyObj :=
  match getAssoc fmap name with
  | Option.none => .errDict ("Unknown function: " ++ name)
  | some f =>
    match normalize_args name args with
    | .error e => .errDict ("Error executing " ++ name ++ ": " ++ e)
    | .ok na =>
      match f na with
      | .error e => .errDict ("Error executing " ++ name ++ ": " ++ e)
      | .ok v => PyObj.val v

/-! ## Auxiliary definitions used by the statements below -/

/-- What `_load_registry` leaves in memory, as a function of the on-disk
index of the current session directory: its parsed contents, or `[]` when
the file is missing or unparseable. -/
def loadedRegistry (x : Option (Option (List Artifact))) : List Artifact :=
  match x with
  | some (some l) => l
  | _ => []

/-- The candidate path `artifacts_read_text` builds before resolving it,
given the current session directory `rd`, the raw argument and the
registry lookup result: `Path(p or id_or_path)`, absolutized against
`rd` when relative. -/
def candOf (rd iop : String) (p? : Option String) : String :=
  let cand0 :=
    match p? with
    | some p => if p = "" then iop else p
    | none => iop
  if isAbsolute cand0 then cand0 else pathJoin rd cand0

/-- Field constraints under which one argument value passes through the
normalizer unchanged: truthy (for fields defaulted with `or`), merely
non-`None` (for fields with a plain `pick` default), or of the exact
type consumed by a coercing field (`bool(...)`, `int(...)`, `float(...)`,
and the `mutations` comma-split which rewrites string values only). -/
inductive FieldTy where
  | truthyAny
  | nonNone
  | boolTy
  | intTy
  | floatTy
  | truthyNonStr
deriving DecidableEq

def fieldOk : FieldTy → Value → Bool
  | .truthyAny, v => truthy v
  | .nonNone, v => v ≠ Value.none
  | .boolTy, v => match v with | .bool _ => true | _ => false
  | .intTy, v => match v with | .int _ => true | _ => false
  | .floatTy, v => match v with | .float _ => true | _ => false
  | .truthyNonStr, v => truthy v && (match v with | .str _ => false | _ => true)

/-- For each tool name with an explicit normalization branch, the target
function's parameter names in the order of the branch's dict literal,
each with the constraint under which its value is preserved. -/
def normSpec : List (String × List (String × FieldTy)) :=
  [("find_uniprot", [("gene", .truthyAny), ("species", .nonNone)]),
   ("download_uniprot_fasta",
     [("gene", .truthyAny), ("species", .nonNone), ("output_file", .nonNone)]),
   ("mutate_replace",
     [("fasta_file", .truthyAny), ("position", .nonNone), ("new_aa", .truthyAny),
      ("output_file", .nonNone)]),
   ("mutate_delete",
     [("fasta_file", .truthyAny), ("start", .nonNone), ("end", .nonNone),
      ("output_file", .nonNone)]),
   ("mutate_insert",
     [("fasta_file", .truthyAny), ("position", .nonNone), ("insert_seq", .truthyAny),
      ("output_file", .nonNone)]),
   ("mutate_truncate",
     [("fasta_file", .truthyAny), ("position", .nonNone), ("output_file", .nonNone)]),
   ("get_gene_variants_excel", [("gene", .truthyAny), ("output_file", .nonNone)]),
   ("plot_mammalian_tree", [("species_list", .truthyAny), ("output_file", .nonNone)]),
   ("build_phylo_tree_nj", [("aligned_fasta", .truthyAny), ("output_file", .nonNone)]),
   ("build_phylo_tree_ml", [("aligned_fasta", .truthyAny), ("output_file", .nonNone)]),
   ("generate_horvath_gene_report", [("gene_query", .truthyAny), ("output_dir", .nonNone)]),
   ("generate_phenoage_gene_report", [("gene_query", .truthyAny), ("output_dir", .nonNone)]),
   ("generate_brunet_gene_report", [("gene_query", .truthyAny), ("output_dir", .nonNone)]),
   ("generate_hannum_gene_report", [("gene_query", .truthyAny), ("output_dir", .nonNone)]),
   ("generate_mammal_report", [("query", .truthyAny), ("output_dir", .nonNone)]),
   ("get_reactome_pathways", [("query", .truthyAny), ("save_report", .boolTy)]),
   ("get_go_annotation", [("query", .truthyAny)]),
   ("get_drug_info", [("query", .truthyAny)]),
   ("get_uniprot_features", [("gene", .truthyAny), ("organism", .nonNone)]),
   ("get_protein_function", [("gene", .truthyAny), ("organism", .nonNone)]),
   ("generate_gene_report_pdf", [("gene", .truthyAny), ("output_file", .nonNone)]),
   ("get_hpa_html", [("gene", .truthyAny), ("output_dir", .nonNone)]),
   ("fetch_and_extract_hpa", [("gene", .truthyAny), ("output_dir", .nonNone)]),
   ("apply_protein_mutations",
     [("fasta_file", .truthyAny), ("mutations", .truthyNonStr), ("output_file", .nonNone),
      ("report_file", .nonNone)]),
   ("compare_solubility_and_pI",
     [("wt_fasta", .truthyAny), ("mut_fasta", .truthyAny), ("output_file", .nonNone)]),
   ("structural_alignment",
     [("pdb1_path", .truthyAny), ("pdb2_path", .truthyAny), ("save_aligned", .boolTy),
      ("out1", .nonNone), ("out2", .nonNone)]),
   ("compare_stability_simple",
     [("pdb_wt", .truthyAny), ("pdb_mut", .truthyAny), ("report_name", .nonNone)]),
   ("download_pdb_structures_for_protein", [("gene", .truthyAny), ("organism", .nonNone)]),
   ("smart_visualize",
     [("pdb_file", .truthyAny), ("output_html", .nonNone), ("background", .nonNone)]),
   ("fetch_articles_structured",
     [("query", .truthyAny), ("num_pdfs", .intTy), ("max_checked", .intTy),
      ("delay", .floatTy)]),
   ("fetch_articles_detailed_log",
     [("query", .truthyAny), ("num_pdfs", .intTy), ("max_checked", .intTy),
      ("delay", .floatTy)]),
   ("generate_comprehensive_prediction",
     [("protein_name", .truthyAny), ("mutations", .truthyNonStr)])]

/-- The tool names `_normalize_args` maps explicitly. -/
def mappedNames : List String := normSpec.map Prod.fst

/-- Predicate `ArgsMatch ps a`: the dict `a` binds exactly the parameter names of
`ps`, in order, each value satisfying its preservation constraint. -/
def ArgsMatch : List (String × FieldTy) → Dict → Bool
  | [], [] => true
  | (k, t) :: ps, (k', v) :: d => k' = k && fieldOk t v && ArgsMatch ps d
  | _, _ => false

/-- A benign environment for concrete instantiations. -/
def env0 : Env :=
  { outBase := "/out", now := 7, newId := "aaaaaaaa",
    resolvePath := fun p => some p }

/-- An empty filesystem. -/
def fs0 : FS := { dirs := [], files := [], indexes := [], readOnly := [] }

/-- A concrete artifact used in counterexamples and witnesses. -/
def artLbl : Artifact :=
  { id := "id1", label := some "q", path := "/out/s/p1.txt", type := none, created_at := 1 }

/-- A second artifact whose id collides with the label of `artLbl`. -/
def artId : Artifact :=
  { id := "q", label := none, path := "/out/s/p2.txt", type := none, created_at := 2 }

/-- A tool that returns normally. -/
def toolOk : ToolFn := fun _ => .ok (.str "ok")

/-- A tool whose implementation raises. -/
def toolBad : ToolFn := fun _ => .error "boom"

/-- A concrete registered tool map. -/
def fmapW : List (String × ToolFn) := [("artifacts_list", toolOk), ("bad_tool", toolBad)]

/-- A session rooted at `/out/s1` used for the traversal-guard witness. -/
def sW3 : AState := { fs := fs0, runDir := some "/out/s1", registry := [artLbl] }

/-- A session whose current directory rejects index writes. -/
def sRO : AState :=
  { fs := { fs0 with readOnly := ["/d"] }, runDir := some "/d", registry := [] }

/-- A registry in which an earlier artifact's label equals a later
artifact's id. -/
def sC4 : AState := { fs := fs0, runDir := some "/s", registry := [artLbl, artId] }

/-- A session holding one in-memory artifact, used to exhibit the clearing
behaviour of `switch_session`. -/
def sC7 : AState := { fs := fs0, runDir := some "/A", registry := [artLbl] }

/-- A filesystem already holding the file `a.txt`. -/
def fsC6 : FS := { dirs := [], files := [("a.txt", "")], indexes := [], readOnly := [] }

/-- An empty in-memory registry over a session directory whose on-disk
index contains an artifact this process never registered. -/
def sW10 : AState :=
  { fs := { fs0 with indexes := [("/s", some [artLbl])] }, runDir := some "/s",
    registry := [] }

/-! ## Basic lemmas about the filesystem model -/

theorem getAssoc_setAssoc_self {α : Type} (l : List (String × α)) (k : String) (v : α) :
    getAssoc (setAssoc l k v) k = some v := by
  induction l with
  | nil => simp [setAssoc, getAssoc]
  | cons hd tl ih =>
    obtain ⟨k', v'⟩ := hd
    by_cases hk : k' = k <;> simp [setAssoc, getAssoc, hk, ih]

theorem getAssoc_setAssoc_ne {α : Type} (l : List (String × α)) (k k' : String) (v : α)
    (h : k' ≠ k) : getAssoc (setAssoc l k v) k' = getAssoc l k' := by
  induction l with
  | nil => simp [setAssoc, getAssoc, Ne.symm h]
  | cons hd tl ih =>
    obtain ⟨k₀, v₀⟩ := hd
    by_cases hk : k₀ = k
    · subst hk
      simp [setAssoc, getAssoc, h, Ne.symm h]
    · simp [setAssoc, getAssoc, hk, ih]

theorem mkdirFS_files (fs : FS) (d : String) : (mkdirFS fs d).files = fs.files := by
  unfold mkdirFS; split <;> rfl

theorem mkdirFS_indexes (fs : FS) (d : String) : (mkdirFS fs d).indexes = fs.indexes := by
  unfold mkdirFS; split <;> rfl

theorem mkdirFS_readOnly (fs : FS) (d : String) : (mkdirFS fs d).readOnly = fs.readOnly := by
  unfold mkdirFS; split <;> rfl

theorem mem_mkdirFS_self (fs : FS) (d : String) : d ∈ (mkdirFS fs d).dirs := by
  unfold mkdirFS; split
  · assumption
  · exact List.mem_cons_self d fs.dirs

/-! ## Behaviour of the session operations under a set `run_dir` -/

theorem get_run_dir_some (env : Env) (s : AState) (rd : String) (h : s.runDir = some rd) :
    get_run_dir env s = (.ok rd, s) := by
  simp [get_run_dir, h]

theorem save_registry_spec (env : Env) (s : AState) (rd : String)
    (h : s.runDir = some rd) (hw : rd ∉ s.fs.readOnly) :
    save_registry env s =
      (.ok (), { s with fs :=
        { s.fs with indexes := setAssoc s.fs.indexes rd (some s.registry) } }) := by
  simp [save_registry, get_run_dir_some env s rd h, writeIndexFS, hw]

theorem save_registry_fail (env : Env) (s : AState) (rd : String)
    (h : s.runDir = some rd) (hw : rd ∈ s.fs.readOnly) :
    save_registry env s = (.error (), s) := by
  simp [save_registry, get_run_dir_some env s rd h, writeIndexFS, hw]

theorem load_registry_spec (env : Env) (s : AState) (rd : String) (h : s.runDir = some rd) :
    load_registry env s =
      (.ok (loadedRegistry (lookupIndex s.fs rd)),
       { s with registry := loadedRegistry (lookupIndex s.fs rd) }) := by
  simp only [load_registry, get_run_dir_some env s rd h]
  rcases hx : lookupIndex s.fs rd with _ | (_ | l) <;> simp [loadedRegistry]

theorem start_session_spec (env : Env) (d : String) (label : Option String) (s : AState)
    (hw : d ∉ s.fs.readOnly) :
    start_session env (some d) label s =
      (.ok d,
       { fs := { dirs := (mkdirFS (mkdirFS s.fs env.outBase) d).dirs,
                 files := s.fs.files,
                 indexes := setAssoc s.fs.indexes d (some []),
                 readOnly := s.fs.readOnly },
         runDir := some d, registry := [] }) := by
  have hro : d ∉ (mkdirFS (mkdirFS s.fs env.outBase) d).readOnly := by
    rw [mkdirFS_readOnly, mkdirFS_readOnly]; exact hw
  have hsave := save_registry_spec env
    { fs := mkdirFS (mkdirFS s.fs env.outBase) d, runDir := some d, registry := [] } d rfl hro
  simp only [start_session, hsave]
  simp [mkdirFS_files, mkdirFS_indexes, mkdirFS_readOnly]

theorem register_artifact_spec (env : Env) (p : String) (t l : Option String) (s : AState)
    (rd rp : String) (hrd : s.runDir = some rd) (hw : rd ∉ s.fs.readOnly)
    (hrp : env.resolvePath p = some rp) :
    register_artifact env p t l s =
      (.ok env.newId,
       { s with registry := s.registry ++ [mkArtifact env rp t l],
                fs := { s.fs with indexes := setAssoc s.fs.indexes rd (some (s.registry ++ [mkArtifact env rp t l])) } }) := by
  have hsave := save_registry_spec env { s with registry := s.registry ++ [mkArtifact env rp t l] }
    rd hrd hw
  simp only [register_artifact, hrp, hsave]
  rfl

theorem register_artifact_fail (env : Env) (p : String) (t l : Option String) (s : AState)
    (rd rp : String) (hrd : s.runDir = some rd) (hw : rd ∈ s.fs.readOnly)
    (hrp : env.resolvePath p = some rp) :
    register_artifact env p t l s =
      (.error (), { s with registry := s.registry ++ [mkArtifact env rp t l] }) := by
  have hsave := save_registry_fail env { s with registry := s.registry ++ [mkArtifact env rp t l] }
    rd hrd hw
  simp only [register_artifact, hrp, hsave]

theorem switch_session_spec (env : Env) (rd : String) (s : AState) :
    switch_session env rd s =
      (.ok rd,
       { s with fs := mkdirFS s.fs rd, runDir := some rd,
                registry := loadedRegistry (lookupIndex s.fs rd) }) := by
  have hload := load_registry_spec env { s with fs := mkdirFS s.fs rd, runDir := some rd } rd rfl
  have hidx : lookupIndex (mkdirFS s.fs rd) rd = lookupIndex s.fs rd := by
    unfold lookupIndex; rw [mkdirFS_indexes]
  simp only [switch_session, hload, hidx]

theorem list_artifacts_empty (env : Env) (t : Option String) (s : AState) (rd : String)
    (hreg : s.registry = []) (hrd : s.runDir = some rd) :
    list_artifacts env t s =
      (.ok (((loadedRegistry (lookupIndex s.fs rd)).filter (typeFilterKeep t)).map viewOf),
       { s with registry := loadedRegistry (lookupIndex s.fs rd) }) := by
  simp [list_artifacts, hreg, load_registry_spec env s rd hrd]

theorem list_artifacts_nonempty (env : Env) (t : Option String) (s : AState)
    (hreg : s.registry ≠ []) :
    list_artifacts env t s = (.ok ((s.registry.filter (typeFilterKeep t)).map viewOf), s) := by
  simp [list_artifacts, hreg]

theorem resolve_artifact_empty (env : Env) (q : String) (s : AState) (rd : String)
    (hreg : s.registry = []) (hrd : s.runDir = some rd) :
    resolve_artifact env q s =
      (.ok (((loadedRegistry (lookupIndex s.fs rd)).find? (fun a => matchesQuery a q)).map
         (·.path)),
       { s with registry := loadedRegistry (lookupIndex s.fs rd) }) := by
  simp [resolve_artifact, hreg, load_registry_spec env s rd hrd]

theorem resolve_artifact_nonempty (env : Env) (q : String) (s : AState)
    (hreg : s.registry ≠ []) :
    resolve_artifact env q s =
      (.ok ((s.registry.find? (fun a => matchesQuery a q)).map (·.path)), s) := by
  simp [resolve_artifact, hreg]

theorem search_artifacts_empty (env : Env) (ns : String) (s : AState) (rd : String)
    (hreg : s.registry = []) (hrd : s.runDir = some rd) :
    search_artifacts env ns s =
      (.ok (((loadedRegistry (lookupIndex s.fs rd)).filter (searchHit ns)).map viewOf),
       { s with registry := loadedRegistry (lookupIndex s.fs rd) }) := by
  simp [search_artifacts, hreg, load_registry_spec env s rd hrd]

/-- First match of a predicate in a split list. -/
theorem find?_first_of_split {α : Type} (p : α → Bool) (l₁ : List α) (a : α) (l₂ : List α)
    (ha : p a = true) (hl : ∀ b ∈ l₁, p b = false) :
    (l₁ ++ a :: l₂).find? p = some a := by
  induction l₁ with
  | nil =>
    rw [List.nil_append]
    exact List.find?_cons_of_pos l₂ ha
  | cons b t ih =>
    have hb : p b = false := hl b (List.mem_cons_self b t)
    rw [List.cons_append, List.find?_cons_of_neg _ (by simp [hb])]
    exact ih (fun x hx => hl x (List.mem_cons_of_mem b hx))

/-! ## Claims C4, C5, C7, C9, C10 -/

/-- C4 counterexample: with registry `[artLbl, artId]`, the query `"q"`
matches `artId` by id and only `artLbl` by label, every id-matching entry
has path `/out/s/p2.txt`, yet `resolve_artifact` returns `artLbl`'s path —
the label match of an earlier entry wins over the id match of a later one,
so there is no id-first pass. -/
theorem C4_resolve_not_id_first :
    artId ∈ sC4.registry ∧ artId.id = "q" ∧
    (∀ a ∈ sC4.registry, a.id = "q" → a.path = "/out/s/p2.txt") ∧
    (resolve_artifact env0 "q" sC4).1 = .ok (some "/out/s/p1.txt") ∧
    ("/out/s/p1.txt" : String) ≠ "/out/s/p2.txt" := by
  exact ⟨by decide, by decide, by decide, rfl, by decide⟩

/-- C4 (amended): `resolve_artifact` makes a single pass over the registry
in insertion order and returns the path of the first artifact whose id
equals the query or whose non-empty label equals the query; with a
non-empty in-memory registry it never raises, and it returns `none` (not
an exception) when nothing matches. -/
theorem C4_resolve_first_single_pass_match (env : Env) (q : String) (s : AState)
    (hne : s.registry ≠ []) :
    (∃ r, resolve_artifact env q s = (.ok r, s)) ∧
    ((∀ a ∈ s.registry, matchesQuery a q = false) →
      (resolve_artifact env q s).1 = .ok Option.none) ∧
    (∀ (l₁ : List Artifact) (a : Artifact) (l₂ : List Artifact),
      s.registry = l₁ ++ a :: l₂ → matchesQuery a q = true →
      (∀ b ∈ l₁, matchesQuery b q = false) →
      (resolve_artifact env q s).1 = .ok (some a.path)) := by
  rw [resolve_artifact_nonempty env q s hne]
  refine ⟨⟨_, rfl⟩, ?_, ?_⟩
  · intro h
    have hf : s.registry.find? (fun a => matchesQuery a q) = Option.none :=
      List.find?_eq_none.mpr (fun x hx => by simp [h x hx])
    simp [hf]
  · intro l₁ a l₂ hsplit ha hl₁
    rw [hsplit, find?_first_of_split _ l₁ a l₂ ha hl₁]
    rfl

/-- Witness for `C4_resolve_first_single_pass_match` at the concrete
registry `sC4`. -/
theorem C4_resolve_first_single_pass_match_witness :
    (resolve_artifact env0 "q" sC4).1 = .ok (some artLbl.path) := by
  have h := (C4_resolve_first_single_pass_match env0 "q" sC4 (by decide)).2.2
    [] artLbl [artId] (by decide) (by decide) (by decide)
  exact h

/-- C5 counterexample: when the index write fails (read-only session
directory), the raise propagates out of `register_artifact` — the write
failure is not swallowed — although the in-memory registry does contain
the new entry. -/
theorem C5_register_raises_on_write_failure :
    (register_artifact env0 "/out/s/p1.txt" Option.none Option.none sRO).1 = .error () ∧
    (register_artifact env0 "/out/s/p1.txt" Option.none Option.none sRO).2.registry =
      [mkArtifact env0 "/out/s/p1.txt" Option.none Option.none] := by
  have h := register_artifact_fail env0 "/out/s/p1.txt" Option.none Option.none sRO
    "/d" "/out/s/p1.txt" rfl (by decide) rfl
  rw [h]
  exact ⟨rfl, rfl⟩

/-- C5 (amended): `register_artifact` always appends the freshly built
entry to the in-memory registry before persisting; when the index write
succeeds it returns the fresh id and the on-disk index holds the appended
registry, but when the write fails the exception propagates out of
`register` (it is not swallowed) — the in-memory registry still contains
the new entry in that case. -/
theorem C5_register_appends_before_persisting (env : Env) (p : String)
    (t l : Option String) (s : AState) (rd rp : String)
    (hrd : s.runDir = some rd) (hrp : env.resolvePath p = some rp) :
    (register_artifact env p t l s).2.registry = s.registry ++ [mkArtifact env rp t l] ∧
    (rd ∉ s.fs.readOnly →
      (register_artifact env p t l s).1 = .ok env.newId ∧
      lookupIndex (register_artifact env p t l s).2.fs rd =
        some (some (s.registry ++ [mkArtifact env rp t l]))) ∧
    (rd ∈ s.fs.readOnly →
      (register_artifact env p t l s).1 = .error () ∧
      (register_artifact env p t l s).2.fs = s.fs) := by
  by_cases hw : rd ∈ s.fs.readOnly
  · rw [register_artifact_fail env p t l s rd rp hrd hw hrp]
    exact ⟨rfl, fun h => absurd hw h, fun _ => ⟨rfl, rfl⟩⟩
  · rw [register_artifact_spec env p t l s rd rp hrd hw hrp]
    refine ⟨rfl, fun _ => ⟨rfl, ?_⟩, fun h => absurd h hw⟩
    simp [lookupIndex, getAssoc_setAssoc_self]

/-- Witness for `C5_register_appends_before_persisting` on a writable
session directory. -/
theorem C5_register_appends_before_persisting_witness :
    (register_artifact env0 "/p.txt" Option.none Option.none
      { fs := fs0, runDir := some "/d", registry := [] }).1 = .ok env0.newId ∧
    (register_artifact env0 "/p.txt" Option.none Option.none
      { fs := fs0, runDir := some "/d", registry := [] }).2.registry =
      [mkArtifact env0 "/p.txt" Option.none Option.none] := by
  have h := C5_register_appends_before_persisting env0 "/p.txt" Option.none Option.none
    { fs := fs0, runDir := some "/d", registry := [] } "/d" "/p.txt" rfl rfl
  exact ⟨(h.2.1 (by decide)).1, h.1⟩

/-- C7 counterexample: `sC7` holds one visible artifact; after
`switch_session` to a directory with no index file the in-memory registry
is `[]` — the artifacts visible before the switch are gone, so the load is
not additive. -/
theorem C7_switch_session_clears :
    (list_artifacts env0 Option.none sC7).1 = .ok [viewOf artLbl] ∧
    lookupIndex sC7.fs "/B" = Option.none ∧
    (switch_session env0 "/B" sC7).2.registry = [] ∧
    (list_artifacts env0 Option.none (switch_session env0 "/B" sC7).2).1 = .ok [] := by
  exact ⟨rfl, rfl, rfl, rfl⟩

/-- C7 (amended): `switch_session(dir)` creates `dir` if absent and sets
it current, but the load is a replacement, not additive: the in-memory
registry becomes the parsed on-disk index of `dir`, and `[]` when `dir`
has no index file (or an unparseable one) — artifacts visible before the
switch are not preserved unless they are in the target's index. -/
theorem C7_switch_session_replaces_registry (env : Env) (rd : String) (s : AState) :
    (switch_session env rd s).1 = .ok rd ∧
    (switch_session env rd s).2.runDir = some rd ∧
    rd ∈ (switch_session env rd s).2.fs.dirs ∧
    (∀ L, lookupIndex s.fs rd = some (some L) → (switch_session env rd s).2.registry = L) ∧
    (lookupIndex s.fs rd = Option.none → (switch_session env rd s).2.registry = []) ∧
    (lookupIndex s.fs rd = some Option.none → (switch_session env rd s).2.registry = []) := by
  rw [switch_session_spec]
  refine ⟨rfl, rfl, mem_mkdirFS_self s.fs rd, ?_, ?_, ?_⟩
  · intro L h; simp [h, loadedRegistry]
  · intro h; simp [h, loadedRegistry]
  · intro h; simp [h, loadedRegistry]

/-- Witness for `C7_switch_session_replaces_registry`: switching `sC7` to
the directory `/s` of `sW10`, whose index holds `artLbl`. -/
theorem C7_switch_session_replaces_registry_witness :
    (switch_session env0 "/s" { sC7 with fs := sW10.fs }).2.registry = [artLbl] := by
  exact (C7_switch_session_replaces_registry env0 "/s" { sC7 with fs := sW10.fs }).2.2.2.1
    [artLbl] (by decide)

/-- C9: calling `start_session` with an explicit target directory `d`
immediately overwrites `d/artifacts.json` with the empty JSON array; any
index previously persisted in `d` is destroyed on disk, while the indexes
of all other directories and all regular files are untouched. -/
theorem C9_start_session_overwrites_target_index (env : Env) (d : String)
    (label : Option String) (s : AState) (hw : d ∉ s.fs.readOnly) :
    (start_session env (some d) label s).1 = .ok d ∧
    lookupIndex (start_session env (some d) label s).2.fs d = some (some []) ∧
    (∀ d', d' ≠ d →
      lookupIndex (start_session env (some d) label s).2.fs d' = lookupIndex s.fs d') ∧
    (start_session env (some d) label s).2.fs.files = s.fs.files ∧
    (start_session env (some d) label s).2.runDir = some d ∧
    (start_session env (some d) label s).2.registry = [] := by
  rw [start_session_spec env d label s hw]
  refine ⟨rfl, ?_, ?_, rfl, rfl, rfl⟩
  · simp [lookupIndex, getAssoc_setAssoc_self]
  · intro d' hd'
    simp [lookupIndex, getAssoc_setAssoc_ne _ _ _ _ hd']

/-- Witness for `C9_start_session_overwrites_target_index`: starting a
session in `/d` over a filesystem whose `/d` index previously held
`artLbl` erases that index and leaves `/e`'s index alone. -/
theorem C9_start_session_overwrites_target_index_witness :
    lookupIndex (start_session env0 (some "/d") Option.none
      { fs := { fs0 with indexes := [("/d", some [artLbl]), ("/e", some [artId])] },
        runDir := Option.none, registry := [] }).2.fs "/d" = some (some []) ∧
    lookupIndex (start_session env0 (some "/d") Option.none
      { fs := { fs0 with indexes := [("/d", some [artLbl]), ("/e", some [artId])] },
        runDir := Option.none, registry := [] }).2.fs "/e" = some (some [artId]) := by
  have h := C9_start_session_overwrites_target_index env0 "/d" Option.none
    { fs := { fs0 with indexes := [("/d", some [artLbl]), ("/e", some [artId])] },
      runDir := Option.none, registry := [] } (by decide)
  refine ⟨h.2.1, ?_⟩
  rw [h.2.2.1 "/e" (by decide)]
  decide

/-- C10: when the in-memory registry is empty, `list_artifacts`,
`resolve_artifact` and `search_artifacts` each first reload the registry
from the current session directory's index — mutating the in-memory state
to the loaded list — and answer from the loaded artifacts, which need
never have been registered by the running process. -/
theorem C10_query_ops_reload_when_registry_empty (env : Env) (s : AState) (rd : String)
    (t : Option String) (q ns : String) (L : List Artifact)
    (hrd : s.runDir = some rd) (hreg : s.registry = [])
    (hidx : lookupIndex s.fs rd = some (some L)) :
    list_artifacts env t s =
      (.ok ((L.filter (typeFilterKeep t)).map viewOf), { s with registry := L }) ∧
    resolve_artifact env q s =
      (.ok ((L.find? (fun a => matchesQuery a q)).map (·.path)), { s with registry := L }) ∧
    search_artifacts env ns s =
      (.ok ((L.filter (searchHit ns)).map viewOf), { s with registry := L }) := by
  have hl : loadedRegistry (lookupIndex s.fs rd) = L := by rw [hidx]; rfl
  rw [list_artifacts_empty env t s rd hreg hrd,
    resolve_artifact_empty env q s rd hreg hrd,
    search_artifacts_empty env ns s rd hreg hrd, hl]
  exact ⟨rfl, rfl, rfl⟩

/-- Witness for `C10_query_ops_reload_when_registry_empty` on `sW10`,
whose on-disk index holds `artLbl` while the process registered
nothing. -/
theorem C10_query_ops_reload_when_registry_empty_witness :
    list_artifacts env0 Option.none sW10 =
      (.ok [viewOf artLbl], { sW10 with registry := [artLbl] }) ∧
    resolve_artifact env0 "q" sW10 =
      (.ok (some artLbl.path), { sW10 with registry := [artLbl] }) := by
  have h := C10_query_ops_reload_when_registry_empty env0 sW10 "/s" Option.none "q" "p1"
    [artLbl] rfl rfl (by decide)
  exact ⟨h.1.trans rfl, h.2.1.trans rfl⟩

/-- C2: an artifact registered after `start_session(A)` does not appear in
`list()` after a subsequent `start_session(B)` (for a distinct, writable
`B`), and appears again after `switch_session(A)`, because the switch
reloads the on-disk index of `A`, which `register` persisted. -/
theorem C2_session_isolation (e1 e2 e3 e4 e5 e6 : Env) (A B p : String)
    (t l : Option String) (s : AState) (rp : String)
    (hAB : A ≠ B) (hA : A ∉ s.fs.readOnly) (hB : B ∉ s.fs.readOnly)
    (hrp : e2.resolvePath p = some rp) :
    ∀ (s1 s2 s3 s4 s5 : AState) (r1 r2 r3 : Except Unit String)
      (r4 : Except Unit (List ArtifactView)) (r5 : Except Unit String),
      start_session e1 (some A) Option.none s = (r1, s1) →
      register_artifact e2 p t l s1 = (r2, s2) →
      start_session e3 (some B) Option.none s2 = (r3, s3) →
      list_artifacts e4 Option.none s3 = (r4, s4) →
      switch_session e5 A s4 = (r5, s5) →
      r2 = .ok e2.newId ∧ r4 = .ok [] ∧
      (list_artifacts e6 Option.none s5).1 = .ok [viewOf (mkArtifact e2 rp t l)] := by
  intro s1 s2 s3 s4 s5 r1 r2 r3 r4 r5 h1 h2 h3 h4 h5
  have eq1 := (start_session_spec e1 A Option.none s hA).symm.trans h1
  injection eq1 with hr1 hs1
  have e1rd : s1.runDir = some A := by rw [← hs1]
  have e1ro : s1.fs.readOnly = s.fs.readOnly := by rw [← hs1]
  have e1reg : s1.registry = [] := by rw [← hs1]
  have e1idx : s1.fs.indexes = setAssoc s.fs.indexes A (some []) := by rw [← hs1]
  have spec2 := register_artifact_spec e2 p t l s1 A rp e1rd (by rw [e1ro]; exact hA) hrp
  have eq2 := spec2.symm.trans h2
  injection eq2 with hr2a hs2
  have hr2 : r2 = .ok e2.newId := hr2a.symm
  have e2rd : s2.runDir = some A := by rw [← hs2]; exact e1rd
  have e2ro : s2.fs.readOnly = s.fs.readOnly := by rw [← hs2]; exact e1ro
  have e2idx : s2.fs.indexes =
      setAssoc (setAssoc s.fs.indexes A (some [])) A
        (some [mkArtifact e2 rp t l]) := by
    rw [← hs2]
    show setAssoc s1.fs.indexes A (some (s1.registry ++ [mkArtifact e2 rp t l])) = _
    rw [e1reg, e1idx]
    rfl
  have spec3 := start_session_spec e3 B Option.none s2 (by rw [e2ro]; exact hB)
  have eq3 := spec3.symm.trans h3
  injection eq3 with hr3a hs3
  have e3rd : s3.runDir = some B := by rw [← hs3]
  have e3reg : s3.registry = [] := by rw [← hs3]
  have e3idx : s3.fs.indexes = setAssoc s2.fs.indexes B (some []) := by rw [← hs3]
  have spec4 := list_artifacts_empty e4 Option.none s3 B e3reg e3rd
  have eq4 := spec4.symm.trans h4
  injection eq4 with hr4a hs4
  have hlkB : lookupIndex s3.fs B = some (some []) := by
    unfold lookupIndex
    rw [e3idx]
    exact getAssoc_setAssoc_self _ _ _
  have hr4 : r4 = .ok [] := by
    rw [← hr4a, hlkB]
    rfl
  have e4rd : s4.runDir = some B := by rw [← hs4]; exact e3rd
  have e4idx : s4.fs.indexes = setAssoc s2.fs.indexes B (some []) := by
    rw [← hs4]; exact e3idx
  have spec5 := switch_session_spec e5 A s4
  have eq5 := spec5.symm.trans h5
  injection eq5 with hr5a hs5
  have hlkA : lookupIndex s4.fs A = some (some [mkArtifact e2 rp t l]) := by
    unfold lookupIndex
    rw [e4idx, getAssoc_setAssoc_ne _ _ _ _ hAB, e2idx]
    exact getAssoc_setAssoc_self _ _ _
  have e5reg : s5.registry = [mkArtifact e2 rp t l] := by
    rw [← hs5]
    show loadedRegistry (lookupIndex s4.fs A) = _
    rw [hlkA]
    rfl
  have final := list_artifacts_nonempty e6 Option.none s5 (by rw [e5reg]; simp)
  refine ⟨hr2, hr4, ?_⟩
  rw [final]
  show Except.ok ((s5.registry.filter _).map viewOf) = _
  rw [e5reg]
  rfl

/-- Witness for `C2_session_isolation` on a concrete run: empty initial
filesystem, sessions `/A` and `/B`, one registered artifact. -/
theorem C2_session_isolation_witness :
    (list_artifacts env0 Option.none
      (switch_session env0 "/A"
        (list_artifacts env0 Option.none
          (start_session env0 (some "/B") Option.none
            (register_artifact env0 "/A/f.txt" Option.none Option.none
              (start_session env0 (some "/A") Option.none
                { fs := fs0, runDir := Option.none, registry := [] }).2).2).2).2).2).1 =
      .ok [viewOf (mkArtifact env0 "/A/f.txt" Option.none Option.none)] := by
  have h := C2_session_isolation env0 env0 env0 env0 env0 env0 "/A" "/B" "/A/f.txt"
    Option.none Option.none { fs := fs0, runDir := Option.none, registry := [] } "/A/f.txt"
    (by decide) (by decide) (by decide) rfl
    _ _ _ _ _ _ _ _ _ _ rfl rfl rfl rfl rfl
  exact h.2.2

/-! ## Claims C1 and C3 -/

/-- C1: `_execute_function` never lets an exception propagate: it total-ly
returns either a tool value or an error dict; an unknown name yields
`{"error": "Unknown function: <name>"}`; an exception raised by argument
normalization or by the tool yields
`{"error": "Error executing <name>: <str(e)>"}`; and a successful call
returns the tool's native return value unchanged. -/
theorem C1_execute_function_isolated :
    (∀ (fmap : List (String × ToolFn)) (name : String) (args : Dict),
      (∃ v, execute_function fmap name args = .val v) ∨
      (∃ m, execute_function fmap name args = .errDict m)) ∧
    (∀ (fmap : List (String × ToolFn)) (name : String) (args : Dict),
      getAssoc fmap name = Option.none →
      execute_function fmap name args = .errDict ("Unknown function: " ++ name)) ∧
    (∀ (fmap : List (String × ToolFn)) (name : String) (args : Dict) (f : ToolFn)
      (e : String), getAssoc fmap name = some f → normalize_args name args = .error e →
      execute_function fmap name args =
        .errDict ("Error executing " ++ name ++ ": " ++ e)) ∧
    (∀ (fmap : List (String × ToolFn)) (name : String) (args : Dict) (f : ToolFn)
      (na : Dict) (e : String), getAssoc fmap name = some f →
      normalize_args name args = .ok na → f na = .error e →
      execute_function fmap name args =
        .errDict ("Error executing " ++ name ++ ": " ++ e)) ∧
    (∀ (fmap : List (String × ToolFn)) (name : String) (args : Dict) (f : ToolFn)
      (na : Dict) (v : Value), getAssoc fmap name = some f →
      normalize_args name args = .ok na → f na = .ok v →
      execute_function fmap name args = .val v) := by
  refine ⟨?_, ?_, ?_, ?_, ?_⟩
  · intro fmap name args
    rcases hg : getAssoc fmap name with _ | f
    · exact .inr ⟨"Unknown function: " ++ name, by simp only [execute_function, hg]⟩
    · rcases hn : normalize_args name args with e | na
      · exact .inr ⟨"Error executing " ++ name ++ ": " ++ e,
          by simp only [execute_function, hg, hn]⟩
      · rcases hr : f na with e | v
        · exact .inr ⟨"Error executing " ++ name ++ ": " ++ e,
            by simp only [execute_function, hg, hn, hr]⟩
        · exact .inl ⟨v, by simp only [execute_function, hg, hn, hr]⟩
  · intro fmap name args h
    simp only [execute_function, h]
  · intro fmap name args f e hf hn
    simp only [execute_function, hf, hn]
  · intro fmap name args f na e hf hn hr
    simp only [execute_function, hf, hn, hr]
  · intro fmap name args f na v hf hn hr
    simp only [execute_function, hf, hn, hr]

/-- Witness for `C1_execute_function_isolated`: the unknown-tool,
raising-tool and successful-tool cases on the concrete map `fmapW`. -/
theorem C1_execute_function_isolated_witness :
    execute_function fmapW "nope" [] = .errDict "Unknown function: nope" ∧
    execute_function fmapW "bad_tool" [] = .errDict "Error executing bad_tool: boom" ∧
    execute_function fmapW "artifacts_list" [] = .val (.str "ok") := by
  have h := C1_execute_function_isolated
  exact ⟨h.2.1 fmapW "nope" [] rfl,
         h.2.2.2.1 fmapW "bad_tool" [] toolBad [] "boom" rfl rfl rfl,
         h.2.2.2.2 fmapW "artifacts_list" [] toolOk [] (.str "ok") rfl rfl rfl⟩

/-- Lemma: `readCandidate` under a set `run_dir` neither raises nor mutates. -/
theorem readCandidate_spec (env : Env) (iop : String) (p? : Option String) (s : AState)
    (rd : String) (hrd : s.runDir = some rd) :
    readCandidate env iop p? s = (.ok (candOf rd iop p?), s) := by
  unfold readCandidate candOf
  rcases p? with _ | p
  · by_cases habs : isAbsolute iop
    · simp [habs]
    · simp [habs, get_run_dir_some env s rd hrd]
  · by_cases hp : p = ""
    · by_cases habs : isAbsolute iop
      · simp [hp, habs]
      · simp [hp, habs, get_run_dir_some env s rd hrd]
    · by_cases habs : isAbsolute p
      · simp [hp, habs]
      · simp [hp, habs, get_run_dir_some env s rd hrd]

/-- C3: whenever the candidate path of `artifacts_read_text` resolves to an
absolute path that does not lie under the outputs-root ancestor directory
(the parent of the resolved session directory, resolved again), the call
returns the access-denied sentinel — with no condition on whether the file
exists, and never its contents. -/
theorem C3_read_text_denies_outside_root (env : Env) (iop : String) (mb : Int)
    (s s1 : AState) (p? : Option String) (rd rp rdr rootr : String)
    (hres : resolve_artifact env iop s = (.ok p?, s1))
    (hrd : s1.runDir = some rd)
    (hrp : env.resolvePath (candOf rd iop p?) = some rp)
    (hrdr : env.resolvePath rd = some rdr)
    (hrootr : env.resolvePath (pathParent rdr) = some rootr)
    (hout : isUnder rp rootr = false) :
    (artifacts_read_text env iop mb s).1 = .ok accessDeniedMsg := by
  simp only [artifacts_read_text, hres, readCandidate_spec env iop p? s1 rd hrd, hrp,
    get_run_dir_some env s1 rd hrd, hrdr, hrootr, hout]
  simp

/-- Witness for `C3_read_text_denies_outside_root`: reading
`/etc/passwd` from a session rooted at `/out/s1` is denied. -/
theorem C3_read_text_denies_outside_root_witness :
    (artifacts_read_text env0 "/etc/passwd" 16384 sW3).1 = .ok accessDeniedMsg := by
  exact C3_read_text_denies_outside_root env0 "/etc/passwd" 16384 sW3 sW3 Option.none
    "/out/s1" "/etc/passwd" "/out/s1" "/out" rfl rfl rfl rfl rfl (by decide)

/-! ## Claim C8: argument-normalization idempotence -/

theorem truthy_ne_none {v : Value} (h : truthy v = true) : v ≠ Value.none := by
  cases v <;> simp_all [truthy]

theorem pyOr_of_truthy {v : Value} (h : truthy v = true) (d : Value) : pyOr v d = v := by
  simp [pyOr, h]

theorem fieldOk_truthy {v : Value} (h : fieldOk .truthyAny v = true) : truthy v = true := by
  simpa [fieldOk] using h

theorem fieldOk_nonNone {v : Value} (h : fieldOk .nonNone v = true) : v ≠ Value.none := by
  simpa [fieldOk] using h

theorem fieldOk_bool {v : Value} (h : fieldOk .boolTy v = true) : ∃ b, v = Value.bool b := by
  cases v <;> simp_all [fieldOk]

theorem fieldOk_int {v : Value} (h : fieldOk .intTy v = true) : ∃ n, v = Value.int n := by
  cases v <;> simp_all [fieldOk]

theorem fieldOk_float {v : Value} (h : fieldOk .floatTy v = true) : ∃ q, v = Value.float q := by
  cases v <;> simp_all [fieldOk]

theorem pyBool_bool (b : Bool) : pyBool (Value.bool b) = Value.bool b := by
  cases b <;> rfl

theorem splitMutations_of_ok {v : Value} (h : fieldOk .truthyNonStr v = true) :
    splitMutations v = v := by
  cases v <;> simp_all [fieldOk, splitMutations, pyOr, truthy]

theorem fieldOk_truthyNonStr_ne_none {v : Value} (h : fieldOk .truthyNonStr v = true) :
    v ≠ Value.none := by
  cases v <;> simp_all [fieldOk, truthy]

theorem argsMatch_nil {a : Dict} (h : ArgsMatch [] a = true) : a = [] := by
  rcases a with _ | ⟨⟨k, v⟩, d⟩ <;> simp_all [ArgsMatch]

theorem argsMatch_cons {k : String} {t : FieldTy} {ps : List (String × FieldTy)} {a : Dict}
    (h : ArgsMatch ((k, t) :: ps) a = true) :
    ∃ v d, a = (k, v) :: d ∧ fieldOk t v = true ∧ ArgsMatch ps d = true := by
  rcases a with _ | ⟨⟨k', v⟩, d⟩
  · simp [ArgsMatch] at h
  · simp only [ArgsMatch, Bool.and_eq_true, decide_eq_true_eq] at h
    exact ⟨v, d, by rw [h.1.1], h.1.2, h.2⟩

/-- C8 (amended): a tool name with no explicit mapping passes its argument
dict through unchanged; and for every explicitly mapped tool name, an
argument dict that binds exactly the target function's parameter names (in
canonical order) with truthy values — well-typed for the coercing fields —
normalizes to itself, keys and values unchanged. -/
theorem C8_normalize_args_idempotent_on_wellformed :
    (∀ (name : String) (a : Dict), name ∉ mappedNames → normalize_args name a = .ok a) ∧
    (∀ (name : String) (ps : List (String × FieldTy)) (a : Dict),
      (name, ps) ∈ normSpec → ArgsMatch ps a = true → normalize_args name a = .ok a) := by
  constructor
  · intro name a hn
    have hq1 : name ≠ "find_uniprot" := fun h => hn (by rw [h]; decide)
    have hq2 : name ≠ "download_uniprot_fasta" := fun h => hn (by rw [h]; decide)
    have hq3 : name ≠ "mutate_replace" := fun h => hn (by rw [h]; decide)
    have hq4 : name ≠ "mutate_delete" := fun h => hn (by rw [h]; decide)
    have hq5 : name ≠ "mutate_insert" := fun h => hn (by rw [h]; decide)
    have hq6 : name ≠ "mutate_truncate" := fun h => hn (by rw [h]; decide)
    have hq7 : name ≠ "get_gene_variants_excel" := fun h => hn (by rw [h]; decide)
    have hq8 : name ≠ "plot_mammalian_tree" := fun h => hn (by rw [h]; decide)
    have hq9 : name ≠ "build_phylo_tree_nj" := fun h => hn (by rw [h]; decide)
    have hq10 : name ≠ "build_phylo_tree_ml" := fun h => hn (by rw [h]; decide)
    have hq11 : name ≠ "generate_horvath_gene_report" := fun h => hn (by rw [h]; decide)
    have hq12 : name ≠ "generate_phenoage_gene_report" := fun h => hn (by rw [h]; decide)
    have hq13 : name ≠ "generate_brunet_gene_report" := fun h => hn (by rw [h]; decide)
    have hq14 : name ≠ "generate_hannum_gene_report" := fun h => hn (by rw [h]; decide)
    have hq15 : name ≠ "generate_mammal_report" := fun h => hn (by rw [h]; decide)
    have hq16 : name ≠ "get_reactome_pathways" := fun h => hn (by rw [h]; decide)
    have hq17 : name ≠ "get_go_annotation" := fun h => hn (by rw [h]; decide)
    have hq18 : name ≠ "get_drug_info" := fun h => hn (by rw [h]; decide)
    have hq19 : name ≠ "get_uniprot_features" := fun h => hn (by rw [h]; decide)
    have hq20 : name ≠ "get_protein_function" := fun h => hn (by rw [h]; decide)
    have hq21 : name ≠ "generate_gene_report_pdf" := fun h => hn (by rw [h]; decide)
    have hq22 : name ≠ "get_hpa_html" := fun h => hn (by rw [h]; decide)
    have hq23 : name ≠ "fetch_and_extract_hpa" := fun h => hn (by rw [h]; decide)
    have hq24 : name ≠ "apply_protein_mutations" := fun h => hn (by rw [h]; decide)
    have hq25 : name ≠ "compare_solubility_and_pI" := fun h => hn (by rw [h]; decide)
    have hq26 : name ≠ "structural_alignment" := fun h => hn (by rw [h]; decide)
    have hq27 : name ≠ "compare_stability_simple" := fun h => hn (by rw [h]; decide)
    have hq28 : name ≠ "download_pdb_structures_for_protein" := fun h => hn (by rw [h]; decide)
    have hq29 : name ≠ "smart_visualize" := fun h => hn (by rw [h]; decide)
    have hq30 : name ≠ "fetch_articles_structured" := fun h => hn (by rw [h]; decide)
    have hq31 : name ≠ "fetch_articles_detailed_log" := fun h => hn (by rw [h]; decide)
    have hq32 : name ≠ "generate_comprehensive_prediction" := fun h => hn (by rw [h]; decide)
    simp [normalize_args, hq1, hq2, hq3, hq4, hq5, hq6, hq7, hq8, hq9, hq10, hq11, hq12, hq13, hq14, hq15, hq16, hq17, hq18, hq19, hq20, hq21, hq22, hq23, hq24, hq25, hq26, hq27, hq28, hq29, hq30, hq31, hq32]
  · intro name ps a hmem hmatch
    simp only [normSpec] at hmem
    fin_cases hmem
    · -- find_uniprot
      obtain ⟨v1, a1, rfl, hf1, hm1⟩ := argsMatch_cons hmatch
      obtain ⟨v2, a2, rfl, hf2, hm2⟩ := argsMatch_cons hm1
      obtain rfl := argsMatch_nil hm2
      have ht1 := fieldOk_truthy hf1
      have hn2 := fieldOk_nonNone hf2
      simp [normalize_args, pick, getAssoc, pyOr_of_truthy ht1, truthy_ne_none ht1, hn2]
    · -- download_uniprot_fasta
      obtain ⟨v1, a1, rfl, hf1, hm1⟩ := argsMatch_cons hmatch
      obtain ⟨v2, a2, rfl, hf2, hm2⟩ := argsMatch_cons hm1
      obtain ⟨v3, a3, rfl, hf3, hm3⟩ := argsMatch_cons hm2
      obtain rfl := argsMatch_nil hm3
      have ht1 := fieldOk_truthy hf1
      have hn2 := fieldOk_nonNone hf2
      have hn3 := fieldOk_nonNone hf3
      simp [normalize_args, pick, getAssoc, pyOr_of_truthy ht1, truthy_ne_none ht1, hn2, hn3]
    · -- mutate_replace
      obtain ⟨v1, a1, rfl, hf1, hm1⟩ := argsMatch_cons hmatch
      obtain ⟨v2, a2, rfl, hf2, hm2⟩ := argsMatch_cons hm1
      obtain ⟨v3, a3, rfl, hf3, hm3⟩ := argsMatch_cons hm2
      obtain ⟨v4, a4, rfl, hf4, hm4⟩ := argsMatch_cons hm3
      obtain rfl := argsMatch_nil hm4
      have ht1 := fieldOk_truthy hf1
      have hn2 := fieldOk_nonNone hf2
      have ht3 := fieldOk_truthy hf3
      have hn4 := fieldOk_nonNone hf4
      simp [normalize_args, pick, getAssoc, pyOr_of_truthy ht1, truthy_ne_none ht1, hn2, pyOr_of_truthy ht3, truthy_ne_none ht3, hn4]
    · -- mutate_delete
      obtain ⟨v1, a1, rfl, hf1, hm1⟩ := argsMatch_cons hmatch
      obtain ⟨v2, a2, rfl, hf2, hm2⟩ := argsMatch_cons hm1
      obtain ⟨v3, a3, rfl, hf3, hm3⟩ := argsMatch_cons hm2
      obtain ⟨v4, a4, rfl, hf4, hm4⟩ := argsMatch_cons hm3
      obtain rfl := argsMatch_nil hm4
      have ht1 := fieldOk_truthy hf1
      have hn2 := fieldOk_nonNone hf2
      have hn3 := fieldOk_nonNone hf3
      have hn4 := fieldOk_nonNone hf4
      simp [normalize_args, pick, getAssoc, pyOr_of_truthy ht1, truthy_ne_none ht1, hn2, hn3, hn4]
    · -- mutate_insert
      obtain ⟨v1, a1, rfl, hf1, hm1⟩ := argsMatch_cons hmatch
      obtain ⟨v2, a2, rfl, hf2, hm2⟩ := argsMatch_cons hm1
      obtain ⟨v3, a3, rfl, hf3, hm3⟩ := argsMatch_cons hm2
      obtain ⟨v4, a4, rfl, hf4, hm4⟩ := argsMatch_cons hm3
      obtain rfl := argsMatch_nil hm4
      have ht1 := fieldOk_truthy hf1
      have hn2 := fieldOk_nonNone hf2
      have ht3 := fieldOk_truthy hf3
      have hn4 := fieldOk_nonNone hf4
      simp [normalize_args, pick, getAssoc, pyOr_of_truthy ht1, truthy_ne_none ht1, hn2, pyOr_of_truthy ht3, truthy_ne_none ht3, hn4]
    · -- mutate_truncate
      obtain ⟨v1, a1, rfl, hf1, hm1⟩ := argsMatch_cons hmatch
      obtain ⟨v2, a2, rfl, hf2, hm2⟩ := argsMatch_cons hm1
      obtain ⟨v3, a3, rfl, hf3, hm3⟩ := argsMatch_cons hm2
      obtain rfl := argsMatch_nil hm3
      have ht1 := fieldOk_truthy hf1
      have hn2 := fieldOk_nonNone hf2
      have hn3 := fieldOk_nonNone hf3
      simp [normalize_args, pick, getAssoc, pyOr_of_truthy ht1, truthy_ne_none ht1, hn2, hn3]
    · -- get_gene_variants_excel
      obtain ⟨v1, a1, rfl, hf1, hm1⟩ := argsMatch_cons hmatch
      obtain ⟨v2, a2, rfl, hf2, hm2⟩ := argsMatch_cons hm1
      obtain rfl := argsMatch_nil hm2
      have ht1 := fieldOk_truthy hf1
      have hn2 := fieldOk_nonNone hf2
      simp [normalize_args, pick, getAssoc, pyOr_of_truthy ht1, truthy_ne_none ht1, hn2]
    · -- plot_mammalian_tree
      obtain ⟨v1, a1, rfl, hf1, hm1⟩ := argsMatch_cons hmatch
      obtain ⟨v2, a2, rfl, hf2, hm2⟩ := argsMatch_cons hm1
      obtain rfl := argsMatch_nil hm2
      have ht1 := fieldOk_truthy hf1
      have hn2 := fieldOk_nonNone hf2
      simp [normalize_args, pick, getAssoc, pyOr_of_truthy ht1, truthy_ne_none ht1, hn2]
    · -- build_phylo_tree_nj
      obtain ⟨v1, a1, rfl, hf1, hm1⟩ := argsMatch_cons hmatch
      obtain ⟨v2, a2, rfl, hf2, hm2⟩ := argsMatch_cons hm1
      obtain rfl := argsMatch_nil hm2
      have ht1 := fieldOk_truthy hf1
      have hn2 := fieldOk_nonNone hf2
      simp [normalize_args, pick, getAssoc, pyOr_of_truthy ht1, truthy_ne_none ht1, hn2]
    · -- build_phylo_tree_ml
      obtain ⟨v1, a1, rfl, hf1, hm1⟩ := argsMatch_cons hmatch
      obtain ⟨v2, a2, rfl, hf2, hm2⟩ := argsMatch_cons hm1
      obtain rfl := argsMatch_nil hm2
      have ht1 := fieldOk_truthy hf1
      have hn2 := fieldOk_nonNone hf2
      simp [normalize_args, pick, getAssoc, pyOr_of_truthy ht1, truthy_ne_none ht1, hn2]
    · -- generate_horvath_gene_report
      obtain ⟨v1, a1, rfl, hf1, hm1⟩ := argsMatch_cons hmatch
      obtain ⟨v2, a2, rfl, hf2, hm2⟩ := argsMatch_cons hm1
      obtain rfl := argsMatch_nil hm2
      have ht1 := fieldOk_truthy hf1
      have hn2 := fieldOk_nonNone hf2
      simp [normalize_args, pick, getAssoc, pyOr_of_truthy ht1, truthy_ne_none ht1, hn2]
    · -- generate_phenoage_gene_report
      obtain ⟨v1, a1, rfl, hf1, hm1⟩ := argsMatch_cons hmatch
      obtain ⟨v2, a2, rfl, hf2, hm2⟩ := argsMatch_cons hm1
      obtain rfl := argsMatch_nil hm2
      have ht1 := fieldOk_truthy hf1
      have hn2 := fieldOk_nonNone hf2
      simp [normalize_args, pick, getAssoc, pyOr_of_truthy ht1, truthy_ne_none ht1, hn2]
    · -- generate_brunet_gene_report
      obtain ⟨v1, a1, rfl, hf1, hm1⟩ := argsMatch_cons hmatch
      obtain ⟨v2, a2, rfl, hf2, hm2⟩ := argsMatch_cons hm1
      obtain rfl := argsMatch_nil hm2
      have ht1 := fieldOk_truthy hf1
      have hn2 := fieldOk_nonNone hf2
      simp [normalize_args, pick, getAssoc, pyOr_of_truthy ht1, truthy_ne_none ht1, hn2]
    · -- generate_hannum_gene_report
      obtain ⟨v1, a1, rfl, hf1, hm1⟩ := argsMatch_cons hmatch
      obtain ⟨v2, a2, rfl, hf2, hm2⟩ := argsMatch_cons hm1
      obtain rfl := argsMatch_nil hm2
      have ht1 := fieldOk_truthy hf1
      have hn2 := fieldOk_nonNone hf2
      simp [normalize_args, pick, getAssoc, pyOr_of_truthy ht1, truthy_ne_none ht1, hn2]
    · -- generate_mammal_report
      obtain ⟨v1, a1, rfl, hf1, hm1⟩ := argsMatch_cons hmatch
      obtain ⟨v2, a2, rfl, hf2, hm2⟩ := argsMatch_cons hm1
      obtain rfl := argsMatch_nil hm2
      have ht1 := fieldOk_truthy hf1
      have hn2 := fieldOk_nonNone hf2
      simp [normalize_args, pick, getAssoc, pyOr_of_truthy ht1, truthy_ne_none ht1, hn2]
    · -- get_reactome_pathways
      obtain ⟨v1, a1, rfl, hf1, hm1⟩ := argsMatch_cons hmatch
      obtain ⟨v2, a2, rfl, hf2, hm2⟩ := argsMatch_cons hm1
      obtain rfl := argsMatch_nil hm2
      have ht1 := fieldOk_truthy hf1
      obtain ⟨b2, rfl⟩ := fieldOk_bool hf2
      simp [normalize_args, pick, getAssoc, pyOr_of_truthy ht1, truthy_ne_none ht1, pyBool_bool]
    · -- get_go_annotation
      obtain ⟨v1, a1, rfl, hf1, hm1⟩ := argsMatch_cons hmatch
      obtain rfl := argsMatch_nil hm1
      have ht1 := fieldOk_truthy hf1
      simp [normalize_args, pick, getAssoc, pyOr_of_truthy ht1, truthy_ne_none ht1]
    · -- get_drug_info
      obtain ⟨v1, a1, rfl, hf1, hm1⟩ := argsMatch_cons hmatch
      obtain rfl := argsMatch_nil hm1
      have ht1 := fieldOk_truthy hf1
      simp [normalize_args, pick, getAssoc, pyOr_of_truthy ht1, truthy_ne_none ht1]
    · -- get_uniprot_features
      obtain ⟨v1, a1, rfl, hf1, hm1⟩ := argsMatch_cons hmatch
      obtain ⟨v2, a2, rfl, hf2, hm2⟩ := argsMatch_cons hm1
      obtain rfl := argsMatch_nil hm2
      have ht1 := fieldOk_truthy hf1
      have hn2 := fieldOk_nonNone hf2
      simp [normalize_args, pick, getAssoc, pyOr_of_truthy ht1, truthy_ne_none ht1, hn2]
    · -- get_protein_function
      obtain ⟨v1, a1, rfl, hf1, hm1⟩ := argsMatch_cons hmatch
      obtain ⟨v2, a2, rfl, hf2, hm2⟩ := argsMatch_cons hm1
      obtain rfl := argsMatch_nil hm2
      have ht1 := fieldOk_truthy hf1
      have hn2 := fieldOk_nonNone hf2
      simp [normalize_args, pick, getAssoc, pyOr_of_truthy ht1, truthy_ne_none ht1, hn2]
    · -- generate_gene_report_pdf
      obtain ⟨v1, a1, rfl, hf1, hm1⟩ := argsMatch_cons hmatch
      obtain ⟨v2, a2, rfl, hf2, hm2⟩ := argsMatch_cons hm1
      obtain rfl := argsMatch_nil hm2
      have ht1 := fieldOk_truthy hf1
      have hn2 := fieldOk_nonNone hf2
      simp [normalize_args, pick, getAssoc, pyOr_of_truthy ht1, truthy_ne_none ht1, hn2]
    · -- get_hpa_html
      obtain ⟨v1, a1, rfl, hf1, hm1⟩ := argsMatch_cons hmatch
      obtain ⟨v2, a2, rfl, hf2, hm2⟩ := argsMatch_cons hm1
      obtain rfl := argsMatch_nil hm2
      have ht1 := fieldOk_truthy hf1
      have hn2 := fieldOk_nonNone hf2
      simp [normalize_args, pick, getAssoc, pyOr_of_truthy ht1, truthy_ne_none ht1, hn2]
    · -- fetch_and_extract_hpa
      obtain ⟨v1, a1, rfl, hf1, hm1⟩ := argsMatch_cons hmatch
      obtain ⟨v2, a2, rfl, hf2, hm2⟩ := argsMatch_cons hm1
      obtain rfl := argsMatch_nil hm2
      have ht1 := fieldOk_truthy hf1
      have hn2 := fieldOk_nonNone hf2
      simp [normalize_args, pick, getAssoc, pyOr_of_truthy ht1, truthy_ne_none ht1, hn2]
    · -- apply_protein_mutations
      obtain ⟨v1, a1, rfl, hf1, hm1⟩ := argsMatch_cons hmatch
      obtain ⟨v2, a2, rfl, hf2, hm2⟩ := argsMatch_cons hm1
      obtain ⟨v3, a3, rfl, hf3, hm3⟩ := argsMatch_cons hm2
      obtain ⟨v4, a4, rfl, hf4, hm4⟩ := argsMatch_cons hm3
      obtain rfl := argsMatch_nil hm4
      have ht1 := fieldOk_truthy hf1
      have hm2s := splitMutations_of_ok hf2
      have hn2 := fieldOk_truthyNonStr_ne_none hf2
      have hn3 := fieldOk_nonNone hf3
      have hn4 := fieldOk_nonNone hf4
      simp [normalize_args, pick, getAssoc, pyOr_of_truthy ht1, truthy_ne_none ht1, hm2s, hn2, hn3, hn4]
    · -- compare_solubility_and_pI
      obtain ⟨v1, a1, rfl, hf1, hm1⟩ := argsMatch_cons hmatch
      obtain ⟨v2, a2, rfl, hf2, hm2⟩ := argsMatch_cons hm1
      obtain ⟨v3, a3, rfl, hf3, hm3⟩ := argsMatch_cons hm2
      obtain rfl := argsMatch_nil hm3
      have ht1 := fieldOk_truthy hf1
      have ht2 := fieldOk_truthy hf2
      have hn3 := fieldOk_nonNone hf3
      simp [normalize_args, pick, getAssoc, pyOr_of_truthy ht1, truthy_ne_none ht1, pyOr_of_truthy ht2, truthy_ne_none ht2, hn3]
    · -- structural_alignment
      obtain ⟨v1, a1, rfl, hf1, hm1⟩ := argsMatch_cons hmatch
      obtain ⟨v2, a2, rfl, hf2, hm2⟩ := argsMatch_cons hm1
      obtain ⟨v3, a3, rfl, hf3, hm3⟩ := argsMatch_cons hm2
      obtain ⟨v4, a4, rfl, hf4, hm4⟩ := argsMatch_cons hm3
      obtain ⟨v5, a5, rfl, hf5, hm5⟩ := argsMatch_cons hm4
      obtain rfl := argsMatch_nil hm5
      have ht1 := fieldOk_truthy hf1
      have ht2 := fieldOk_truthy hf2
      obtain ⟨b3, rfl⟩ := fieldOk_bool hf3
      have hn4 := fieldOk_nonNone hf4
      have hn5 := fieldOk_nonNone hf5
      simp [normalize_args, pick, getAssoc, pyOr_of_truthy ht1, truthy_ne_none ht1, pyOr_of_truthy ht2, truthy_ne_none ht2, pyBool_bool, hn4, hn5]
    · -- compare_stability_simple
      obtain ⟨v1, a1, rfl, hf1, hm1⟩ := argsMatch_cons hmatch
      obtain ⟨v2, a2, rfl, hf2, hm2⟩ := argsMatch_cons hm1
      obtain ⟨v3, a3, rfl, hf3, hm3⟩ := argsMatch_cons hm2
      obtain rfl := argsMatch_nil hm3
      have ht1 := fieldOk_truthy hf1
      have ht2 := fieldOk_truthy hf2
      have hn3 := fieldOk_nonNone hf3
      simp [normalize_args, pick, getAssoc, pyOr_of_truthy ht1, truthy_ne_none ht1, pyOr_of_truthy ht2, truthy_ne_none ht2, hn3]
    · -- download_pdb_structures_for_protein
      obtain ⟨v1, a1, rfl, hf1, hm1⟩ := argsMatch_cons hmatch
      obtain ⟨v2, a2, rfl, hf2, hm2⟩ := argsMatch_cons hm1
      obtain rfl := argsMatch_nil hm2
      have ht1 := fieldOk_truthy hf1
      have hn2 := fieldOk_nonNone hf2
      simp [normalize_args, pick, getAssoc, pyOr_of_truthy ht1, truthy_ne_none ht1, hn2]
    · -- smart_visualize
      obtain ⟨v1, a1, rfl, hf1, hm1⟩ := argsMatch_cons hmatch
      obtain ⟨v2, a2, rfl, hf2, hm2⟩ := argsMatch_cons hm1
      obtain ⟨v3, a3, rfl, hf3, hm3⟩ := argsMatch_cons hm2
      obtain rfl := argsMatch_nil hm3
      have ht1 := fieldOk_truthy hf1
      have hn2 := fieldOk_nonNone hf2
      have hn3 := fieldOk_nonNone hf3
      simp [normalize_args, pick, getAssoc, pyOr_of_truthy ht1, truthy_ne_none ht1, hn2, hn3]
    · -- fetch_articles_structured
      obtain ⟨v1, a1, rfl, hf1, hm1⟩ := argsMatch_cons hmatch
      obtain ⟨v2, a2, rfl, hf2, hm2⟩ := argsMatch_cons hm1
      obtain ⟨v3, a3, rfl, hf3, hm3⟩ := argsMatch_cons hm2
      obtain ⟨v4, a4, rfl, hf4, hm4⟩ := argsMatch_cons hm3
      obtain rfl := argsMatch_nil hm4
      have ht1 := fieldOk_truthy hf1
      obtain ⟨n2, rfl⟩ := fieldOk_int hf2
      obtain ⟨n3, rfl⟩ := fieldOk_int hf3
      obtain ⟨q4, rfl⟩ := fieldOk_float hf4
      simp [normalize_args, pick, getAssoc, Bind.bind, Except.bind, pyOr_of_truthy ht1, truthy_ne_none ht1, pyInt, pyFloat]
    · -- fetch_articles_detailed_log
      obtain ⟨v1, a1, rfl, hf1, hm1⟩ := argsMatch_cons hmatch
      obtain ⟨v2, a2, rfl, hf2, hm2⟩ := argsMatch_cons hm1
      obtain ⟨v3, a3, rfl, hf3, hm3⟩ := argsMatch_cons hm2
      obtain ⟨v4, a4, rfl, hf4, hm4⟩ := argsMatch_cons hm3
      obtain rfl := argsMatch_nil hm4
      have ht1 := fieldOk_truthy hf1
      obtain ⟨n2, rfl⟩ := fieldOk_int hf2
      obtain ⟨n3, rfl⟩ := fieldOk_int hf3
      obtain ⟨q4, rfl⟩ := fieldOk_float hf4
      simp [normalize_args, pick, getAssoc, Bind.bind, Except.bind, pyOr_of_truthy ht1, truthy_ne_none ht1, pyInt, pyFloat]
    · -- generate_comprehensive_prediction
      obtain ⟨v1, a1, rfl, hf1, hm1⟩ := argsMatch_cons hmatch
      obtain ⟨v2, a2, rfl, hf2, hm2⟩ := argsMatch_cons hm1
      obtain rfl := argsMatch_nil hm2
      have ht1 := fieldOk_truthy hf1
      have hm2s := splitMutations_of_ok hf2
      have hn2 := fieldOk_truthyNonStr_ne_none hf2
      simp [normalize_args, pick, getAssoc, pyOr_of_truthy ht1, truthy_ne_none ht1, hm2s, hn2]

/-- C8 counterexample: the dict binding exactly `find_uniprot`'s parameter
names `gene` and `species`, with `gene = None`, is not preserved —
normalization replaces the `None` value by the default `""`, so
values are not left unchanged for every dict that uses exactly the target
parameter names. -/
theorem C8_normalize_changes_none_value :
    normalize_args "find_uniprot" [("gene", Value.none), ("species", Value.str "human")] =
      .ok [("gene", Value.str ""), ("species", Value.str "human")] ∧
    Value.none ≠ Value.str "" := by
  exact ⟨rfl, by decide⟩

/-- Witness for `C8_normalize_args_idempotent_on_wellformed`: an unmapped
name passes through; mapped names with truthy, well-typed canonical
arguments are fixed points. -/
theorem C8_normalize_args_idempotent_on_wellformed_witness :
    normalize_args "artifacts_list" [("x", Value.int 3)] = .ok [("x", Value.int 3)] ∧
    normalize_args "find_uniprot"
      [("gene", Value.str "TP53"), ("species", Value.str "human")] =
      .ok [("gene", Value.str "TP53"), ("species", Value.str "human")] ∧
    normalize_args "fetch_articles_structured"
      [("query", Value.str "aging"), ("num_pdfs", Value.int 5),
       ("max_checked", Value.int 300), ("delay", Value.float (5 / 2))] =
      .ok [("query", Value.str "aging"), ("num_pdfs", Value.int 5),
       ("max_checked", Value.int 300), ("delay", Value.float (5 / 2))] := by
  have h := C8_normalize_args_idempotent_on_wellformed
  refine ⟨h.1 "artifacts_list" [("x", Value.int 3)] (by decide),
    h.2 "find_uniprot" [("gene", .truthyAny), ("species", .nonNone)]
      [("gene", Value.str "TP53"), ("species", Value.str "human")] (by decide) (by decide),
    h.2 "fetch_articles_structured"
      [("query", .truthyAny), ("num_pdfs", .intTy), ("max_checked", .intTy),
       ("delay", .floatTy)]
      [("query", Value.str "aging"), ("num_pdfs", Value.int 5),
       ("max_checked", Value.int 300), ("delay", Value.float (5 / 2))] (by decide) (by decide)⟩

/-! ## Claim C6: `ensure_unique_path` -/

theorem decDigitsAux_eq_digits : ∀ (fuel n : Nat), n ≤ fuel →
    decDigitsAux fuel n = Nat.digits 10 n := by
  intro fuel
  induction fuel with
  | zero =>
    intro n h
    have hn : n = 0 := Nat.le_zero.mp h
    subst hn
    simp [decDigitsAux]
  | succ fuel ih =>
    intro n h
    by_cases hn : n = 0
    · subst hn
      simp [decDigitsAux]
    · have hdiv : n / 10 ≤ fuel := by
        have h1 : n / 10 < n := Nat.div_lt_self (Nat.pos_of_ne_zero hn) (by norm_num)
        omega
      rw [decDigitsAux, if_neg hn, ih (n / 10) hdiv,
        ← Nat.digits_def' (by norm_num : 1 < 10) (Nat.pos_of_ne_zero hn)]

theorem decDigits_eq_digits (n : Nat) : decDigits n = Nat.digits 10 n :=
  decDigitsAux_eq_digits n n (Nat.le_refl n)

theorem digitChar_inj_fin : ∀ (a b : Fin 10), Nat.digitChar a = Nat.digitChar b → a = b := by
  decide

theorem digitChar_inj {a b : Nat} (ha : a < 10) (hb : b < 10)
    (h : Nat.digitChar a = Nat.digitChar b) : a = b := by
  have := digitChar_inj_fin ⟨a, ha⟩ ⟨b, hb⟩ h
  exact congrArg Fin.val this

theorem map_digitChar_inj : ∀ (l1 l2 : List Nat), (∀ x ∈ l1, x < 10) → (∀ x ∈ l2, x < 10) →
    l1.map Nat.digitChar = l2.map Nat.digitChar → l1 = l2 := by
  intro l1
  induction l1 with
  | nil =>
    intro l2 _ _ h
    rcases l2 with _ | ⟨y, l2⟩
    · rfl
    · simp at h
  | cons x l1 ih =>
    intro l2 h1 h2 h
    rcases l2 with _ | ⟨y, l2⟩
    · simp at h
    · simp only [List.map_cons, List.cons.injEq] at h
      have hx := h1 x (List.mem_cons_self x l1)
      have hy := h2 y (List.mem_cons_self y l2)
      have hxy := digitChar_inj hx hy h.1
      rw [hxy, ih l2 (fun z hz => h1 z (List.mem_cons_of_mem x hz))
        (fun z hz => h2 z (List.mem_cons_of_mem y hz)) h.2]

theorem digits_lt_ten (n : Nat) : ∀ d ∈ Nat.digits 10 n, d < 10 := fun _ hd =>
  Nat.digits_lt_base (by norm_num) hd

theorem decRepr_digits_inj {m n : Nat} (hm : m ≠ 0) (hn : n ≠ 0)
    (h : decRepr m = decRepr n) : m = n := by
  unfold decRepr at h
  rw [if_neg hm, if_neg hn] at h
  have hdata : ((decDigits m).reverse.map Nat.digitChar) =
      ((decDigits n).reverse.map Nat.digitChar) := congrArg String.data h
  rw [decDigits_eq_digits, decDigits_eq_digits] at hdata
  have hrev := map_digitChar_inj _ _
    (fun d hd => digits_lt_ten m d (List.mem_reverse.mp hd))
    (fun d hd => digits_lt_ten n d (List.mem_reverse.mp hd)) hdata
  have hdig : Nat.digits 10 m = Nat.digits 10 n := List.reverse_injective hrev
  have := congrArg (Nat.ofDigits 10) hdig
  rwa [Nat.ofDigits_digits, Nat.ofDigits_digits] at this

theorem decRepr_ne_zero_repr {n : Nat} (hn : n ≠ 0) : decRepr n ≠ "0" := by
  intro h
  unfold decRepr at h
  rw [if_neg hn] at h
  have hdata : ((decDigits n).reverse.map Nat.digitChar) = ['0'] := congrArg String.data h
  rw [decDigits_eq_digits] at hdata
  have hlen : (Nat.digits 10 n).reverse.length = 1 := by
    rw [← List.length_map (Nat.digits 10 n).reverse Nat.digitChar, hdata]
    rfl
  rcases hrev : (Nat.digits 10 n).reverse with _ | ⟨d, rest⟩
  · rw [hrev] at hlen; simp at hlen
  · rw [hrev] at hlen hdata
    rcases rest with _ | ⟨d', rest⟩
    · simp only [List.map_cons, List.map_nil, List.cons.injEq] at hdata
      have hd10 : d < 10 := by
        refine digits_lt_ten n d ?_
        have : d ∈ (Nat.digits 10 n).reverse := by rw [hrev]; exact List.mem_cons_self d []
        exact List.mem_reverse.mp this
      have hd0 : d = 0 := digitChar_inj hd10 (by norm_num) (by simpa using hdata.1)
      have hdig : Nat.digits 10 n = [0] := by
        have := congrArg List.reverse hrev
        rw [List.reverse_reverse] at this
        rw [this, hd0]
        rfl
      have := congrArg (Nat.ofDigits 10) hdig
      rw [Nat.ofDigits_digits] at this
      simp [Nat.ofDigits] at this
      exact hn this
    · simp at hlen

theorem decRepr_injective : Function.Injective decRepr := by
  intro m n h
  by_cases hm : m = 0 <;> by_cases hn : n = 0
  · rw [hm, hn]
  · subst hm
    exact absurd h.symm (decRepr_ne_zero_repr hn)
  · subst hn
    exact absurd h (decRepr_ne_zero_repr hm)
  · exact decRepr_digits_inj hm hn h

theorem string_append_left_cancel {s x y : String} (h : s ++ x = s ++ y) : x = y := by
  have hd : s.data ++ x.data = s.data ++ y.data := by
    have := congrArg String.data h
    rwa [String.data_append, String.data_append] at this
  have h2 := List.append_cancel_left hd
  cases x; cases y; exact congrArg String.mk h2

theorem string_append_cancel_mid (a b x y : String) (h : a ++ x ++ b = a ++ y ++ b) :
    x = y := by
  have hd : a.data ++ x.data ++ b.data = a.data ++ y.data ++ b.data := by
    have := congrArg String.data h
    rwa [String.data_append, String.data_append, String.data_append,
      String.data_append] at this
  have h1 := List.append_cancel_right hd
  have h2 := List.append_cancel_left h1
  cases x; cases y; exact congrArg String.mk h2

theorem mkCand_injective (parent stem suffix : String) :
    Function.Injective (mkCand parent stem suffix) := by
  intro i j h
  unfold mkCand pathJoin at h
  split_ifs at h
  · exact decRepr_injective (string_append_cancel_mid (stem ++ "_") suffix _ _ h)
  · exact decRepr_injective (string_append_cancel_mid (stem ++ "_") suffix _ _
      (string_append_left_cancel h))
  · exact decRepr_injective (string_append_cancel_mid (stem ++ "_") suffix _ _
      (string_append_left_cancel h))

theorem getAssoc_mem_keys {α : Type} : ∀ {l : List (String × α)} {k : String} {v : α},
    getAssoc l k = some v → k ∈ l.map Prod.fst := by
  intro l
  induction l with
  | nil => intro k v h; simp [getAssoc] at h
  | cons hd tl ih =>
    intro k v h
    obtain ⟨k', v'⟩ := hd
    by_cases hk : k' = k
    · subst hk; simp
    · simp only [getAssoc, if_neg hk] at h
      simpa using Or.inr (ih h)

theorem getAssoc_isSome_of_mem_keys {α : Type} : ∀ {l : List (String × α)} {k : String},
    k ∈ l.map Prod.fst → (getAssoc l k).isSome = true := by
  intro l
  induction l with
  | nil => intro k h; simp at h
  | cons hd tl ih =>
    intro k h
    obtain ⟨k', v'⟩ := hd
    by_cases hk : k' = k
    · simp [getAssoc, hk]
    · simp only [List.map_cons, List.mem_cons] at h
      rcases h with h | h
      · exact absurd h.symm hk
      · simpa [getAssoc, hk] using ih h

theorem mem_allPaths_of_pathExists {fs : FS} {p : String} (h : pathExists fs p = true) :
    p ∈ fs.dirs ++ fs.files.map Prod.fst := by
  unfold pathExists at h
  have h' : decide (p ∈ fs.dirs) = true ∨ (getAssoc fs.files p).isSome = true := by
    simpa using h
  rcases h' with h1 | h2
  · exact List.mem_append_left _ (of_decide_eq_true h1)
  · rw [Option.isSome_iff_exists] at h2
    obtain ⟨c, hc⟩ := h2
    exact List.mem_append_right _ (getAssoc_mem_keys hc)

/-- Pigeonhole for the probe loop: among any
`fs.dirs.length + fs.files.length + 1` consecutive candidate names, at
least one does not exist, because candidates with distinct indices are
distinct strings. -/
theorem exists_free_candidate (fs : FS) (parent stem suffix : String) (start : Nat) :
    ∃ j, j < fs.dirs.length + fs.files.length + 1 ∧
      pathExists fs (mkCand parent stem suffix (start + j)) = false := by
  by_contra hc
  push_neg at hc
  have hmem : ∀ k : Fin (fs.dirs.length + fs.files.length + 1),
      mkCand parent stem suffix (start + k.val) ∈ fs.dirs ++ fs.files.map Prod.fst := by
    intro k
    apply mem_allPaths_of_pathExists
    have hk := hc k.val k.isLt
    revert hk
    cases pathExists fs (mkCand parent stem suffix (start + k.val)) <;> simp
  have hinj : Function.Injective
      (fun k : Fin (fs.dirs.length + fs.files.length + 1) =>
        mkCand parent stem suffix (start + k.val)) := by
    intro k1 k2 hk
    have h2 := mkCand_injective parent stem suffix hk
    exact Fin.ext (Nat.add_left_cancel h2)
  have hsub : Finset.univ.image
      (fun k : Fin (fs.dirs.length + fs.files.length + 1) =>
        mkCand parent stem suffix (start + k.val)) ⊆
      (fs.dirs ++ fs.files.map Prod.fst).toFinset := by
    intro x hx
    rw [Finset.mem_image] at hx
    obtain ⟨k, _, rfl⟩ := hx
    exact List.mem_toFinset.mpr (hmem k)
  have h1 := Finset.card_le_card hsub
  rw [Finset.card_image_of_injective _ hinj, Finset.card_univ, Fintype.card_fin] at h1
  have h2 := (fs.dirs ++ fs.files.map Prod.fst).toFinset_card_le
  rw [List.length_append, List.length_map] at h2
  omega

/-- Full characterization of the probe loop, given enough fuel to reach a
free candidate: the result does not exist, and it is the first free
candidate in probe order. -/
theorem probeLoop_spec (fs : FS) (parent stem suffix : String) :
    ∀ (fuel i : Nat),
      (∃ j, j < fuel ∧ pathExists fs (mkCand parent stem suffix (i + j)) = false) →
      pathExists fs (probeLoop fs parent stem suffix fuel i) = false ∧
      ∃ j, j < fuel ∧
        probeLoop fs parent stem suffix fuel i = mkCand parent stem suffix (i + j) ∧
        ∀ k, k < j → pathExists fs (mkCand parent stem suffix (i + k)) = true := by
  intro fuel
  induction fuel with
  | zero =>
    intro i h
    obtain ⟨j, hj, _⟩ := h
    omega
  | succ fuel ih =>
    intro i h
    obtain ⟨j, hj, hfree⟩ := h
    by_cases hex : pathExists fs (mkCand parent stem suffix i) = true
    · have hj0 : j ≠ 0 := by
        rintro rfl
        rw [Nat.add_zero, hex] at hfree
        exact Bool.noConfusion hfree
      have ih_h : ∃ j', j' < fuel ∧
          pathExists fs (mkCand parent stem suffix (i + 1 + j')) = false := by
        refine ⟨j - 1, by omega, ?_⟩
        have harith : i + 1 + (j - 1) = i + j := by omega
        rw [harith]
        exact hfree
      obtain ⟨hres, j', hj', heq, hmin⟩ := ih (i + 1) ih_h
      have hstep : probeLoop fs parent stem suffix (fuel + 1) i =
          probeLoop fs parent stem suffix fuel (i + 1) := by
        simp only [probeLoop]
        rw [if_pos hex]
      rw [hstep]
      refine ⟨hres, j' + 1, by omega, ?_, ?_⟩
      · have harith : i + (j' + 1) = i + 1 + j' := by omega
        rw [harith]
        exact heq
      · intro k hk
        cases k with
        | zero => rw [Nat.add_zero]; exact hex
        | succ k =>
          have harith : i + (k + 1) = i + 1 + k := by omega
          rw [harith]
          exact hmin k (by omega)
    · have hfalse : pathExists fs (mkCand parent stem suffix i) = false := by
        revert hex
        cases pathExists fs (mkCand parent stem suffix i) <;> simp
      have hstep : probeLoop fs parent stem suffix (fuel + 1) i =
          mkCand parent stem suffix i := by
        simp only [probeLoop]
        rw [if_neg hex]
      rw [hstep]
      exact ⟨hfalse, 0, Nat.succ_pos fuel, by rw [Nat.add_zero],
        fun k hk => absurd hk (Nat.not_lt_zero k)⟩

theorem ensure_unique_path_snd (fs : FS) (req : String) :
    (ensure_unique_path fs req).2 = mkdirFS fs (pathParent req) := by
  unfold ensure_unique_path
  split <;> rfl

theorem ensure_unique_path_probe (fs : FS) (req : String)
    (hex : pathExists (mkdirFS fs (pathParent req)) req = true) :
    pathExists (mkdirFS fs (pathParent req)) (ensure_unique_path fs req).1 = false ∧
    ∃ i, 1 ≤ i ∧
      (ensure_unique_path fs req).1 =
        mkCand (pathParent req) (String.mk (stemSuffix (pathName req).data).1)
          (String.mk (stemSuffix (pathName req).data).2) i ∧
      ∀ k, 1 ≤ k → k < i →
        pathExists (mkdirFS fs (pathParent req))
          (mkCand (pathParent req) (String.mk (stemSuffix (pathName req).data).1)
            (String.mk (stemSuffix (pathName req).data).2) k) = true := by
  have hfuel := exists_free_candidate (mkdirFS fs (pathParent req)) (pathParent req)
    (String.mk (stemSuffix (pathName req).data).1)
    (String.mk (stemSuffix (pathName req).data).2) 1
  have hspec := probeLoop_spec (mkdirFS fs (pathParent req)) (pathParent req)
    (String.mk (stemSuffix (pathName req).data).1)
    (String.mk (stemSuffix (pathName req).data).2)
    ((mkdirFS fs (pathParent req)).dirs.length +
      (mkdirFS fs (pathParent req)).files.length + 1) 1 hfuel
  obtain ⟨hres, j, hj, heq, hmin⟩ := hspec
  have hfst : (ensure_unique_path fs req).1 =
      probeLoop (mkdirFS fs (pathParent req)) (pathParent req)
        (String.mk (stemSuffix (pathName req).data).1)
        (String.mk (stemSuffix (pathName req).data).2)
        ((mkdirFS fs (pathParent req)).dirs.length +
          (mkdirFS fs (pathParent req)).files.length + 1) 1 := by
    unfold ensure_unique_path
    rw [if_pos hex]
  rw [hfst]
  refine ⟨hres, 1 + j, by omega, heq, ?_⟩
  intro k hk1 hki
  have hk : k = 1 + (k - 1) := by omega
  rw [hk]
  exact hmin (k - 1) (by omega)

theorem ensure_unique_path_free (fs : FS) (req : String)
    (hex : pathExists (mkdirFS fs (pathParent req)) req = false) :
    (ensure_unique_path fs req).1 = req := by
  unfold ensure_unique_path
  rw [if_neg (by rw [hex]; exact Bool.false_ne_true)]

theorem ensure_unique_path_fresh (fs : FS) (req : String) :
    pathExists (mkdirFS fs (pathParent req)) (ensure_unique_path fs req).1 = false := by
  by_cases hex : pathExists (mkdirFS fs (pathParent req)) req = true
  · exact (ensure_unique_path_probe fs req hex).1
  · have hfalse : pathExists (mkdirFS fs (pathParent req)) req = false := by
      revert hex
      cases pathExists (mkdirFS fs (pathParent req)) req <;> simp
    rw [ensure_unique_path_free fs req hfalse]
    exact hfalse

theorem pathExists_mkdirFS (fs : FS) (d p : String) (h : pathExists fs p = true) :
    pathExists (mkdirFS fs d) p = true := by
  unfold mkdirFS
  split
  · exact h
  · unfold pathExists at h ⊢
    have h' : decide (p ∈ fs.dirs) = true ∨ (getAssoc fs.files p).isSome = true := by
      simpa using h
    rcases h' with h1 | h2
    · have hm : p ∈ d :: fs.dirs := List.mem_cons_of_mem d (of_decide_eq_true h1)
      simp [hm]
    · simp [h2]

theorem pathExists_createFile (fs : FS) (r p : String) (h : pathExists fs p = true) :
    pathExists (createFile fs r) p = true := by
  unfold pathExists at h
  unfold pathExists createFile
  have h' : decide (p ∈ fs.dirs) = true ∨ (getAssoc fs.files p).isSome = true := by
    simpa using h
  rcases h' with h1 | h2
  · simp [of_decide_eq_true h1]
  · by_cases hr : r = p
    · simp [getAssoc, hr]
    · simp only [getAssoc, if_neg hr]
      simp [h2]

theorem pathExists_createFile_self (fs : FS) (r : String) :
    pathExists (createFile fs r) r = true := by
  simp [pathExists, createFile, getAssoc]

theorem mem_files_pathExists {fs : FS} {p : String} (h : p ∈ fs.files.map Prod.fst) :
    pathExists fs p = true := by
  unfold pathExists
  simp [getAssoc_isSome_of_mem_keys h]

theorem allocSeq_fresh : ∀ (reqs : List String) (fs : FS) (p : String),
    pathExists fs p = true → p ∉ allocSeq fs reqs := by
  intro reqs
  induction reqs with
  | nil => intro fs p _; simp [allocSeq]
  | cons req reqs ih =>
    intro fs p hp
    simp only [allocSeq, List.mem_cons, not_or]
    constructor
    · intro hcontra
      have hfresh := ensure_unique_path_fresh fs req
      have hmono := pathExists_mkdirFS fs (pathParent req) p hp
      rw [hcontra] at hmono
      rw [hmono] at hfresh
      exact Bool.noConfusion hfresh
    · apply ih
      apply pathExists_createFile
      rw [ensure_unique_path_snd]
      exact pathExists_mkdirFS fs (pathParent req) p hp

theorem allocSeq_nodup : ∀ (reqs : List String) (fs : FS), (allocSeq fs reqs).Nodup := by
  intro reqs
  induction reqs with
  | nil => intro fs; simp [allocSeq]
  | cons req reqs ih =>
    intro fs
    simp only [allocSeq, List.nodup_cons]
    exact ⟨allocSeq_fresh reqs _ _ (pathExists_createFile_self _ _), ih _⟩

theorem allocSeq_avoids_preexisting : ∀ (reqs : List String) (fs : FS) (r : String),
    r ∈ allocSeq fs reqs → r ∉ fs.files.map Prod.fst := by
  intro reqs
  induction reqs with
  | nil => intro fs r h; simp [allocSeq] at h
  | cons req reqs ih =>
    intro fs r h hmem
    simp only [allocSeq, List.mem_cons] at h
    rcases h with rfl | h
    · have hfresh := ensure_unique_path_fresh fs req
      have hT := pathExists_mkdirFS fs (pathParent req) _ (mem_files_pathExists hmem)
      rw [hT] at hfresh
      exact Bool.noConfusion hfresh
    · refine ih (createFile (ensure_unique_path fs req).2 (ensure_unique_path fs req).1) r h ?_
      simp only [createFile, ensure_unique_path_snd, mkdirFS_files, List.map_cons]
      exact List.mem_cons_of_mem _ hmem

/-- C6 counterexample: with `a.txt` already on disk and no file creation
between the calls, two successive `ensure_unique_path` requests for
`a.txt` both return `a_1.txt` — the returned paths of a sequence of calls
are not pairwise distinct unless the caller creates each returned file. -/
theorem C6_repeated_calls_collide :
    (ensure_unique_path fsC6 "a.txt").1 = "a_1.txt" ∧
    (ensure_unique_path (ensure_unique_path fsC6 "a.txt").2 "a.txt").1 = "a_1.txt" := by
  exact ⟨rfl, rfl⟩

/-- C6 (amended): `ensure_unique_path` returns the requested path
unchanged when it does not exist; otherwise it returns the first
non-existing candidate of the probe sequence `name_1.ext`, `name_2.ext`, …
(every earlier candidate exists); the returned path never collides with an
existing file or directory; and in a sequence of calls in which the caller
creates each returned file before the next call, the returned paths are
pairwise distinct and none collides with a pre-existing file.  (Without
that creation step, repeated calls may return the same path.) -/
theorem C6_ensure_unique_path_correct :
    (∀ (fs : FS) (req : String),
      pathExists (mkdirFS fs (pathParent req)) req = false →
      (ensure_unique_path fs req).1 = req) ∧
    (∀ (fs : FS) (req : String),
      pathExists (mkdirFS fs (pathParent req)) req = true →
      ∃ i, 1 ≤ i ∧
        (ensure_unique_path fs req).1 =
          mkCand (pathParent req) (String.mk (stemSuffix (pathName req).data).1)
            (String.mk (stemSuffix (pathName req).data).2) i ∧
        ∀ k, 1 ≤ k → k < i →
          pathExists (mkdirFS fs (pathParent req))
            (mkCand (pathParent req) (String.mk (stemSuffix (pathName req).data).1)
              (String.mk (stemSuffix (pathName req).data).2) k) = true) ∧
    (∀ (fs : FS) (req : String),
      pathExists (mkdirFS fs (pathParent req)) (ensure_unique_path fs req).1 = false) ∧
    (∀ (fs : FS) (reqs : List String),
      (allocSeq fs reqs).Nodup ∧ ∀ r ∈ allocSeq fs reqs, r ∉ fs.files.map Prod.fst) := by
  refine ⟨fun fs req h => ensure_unique_path_free fs req h, ?_, ?_, ?_⟩
  · intro fs req hex
    obtain ⟨_, i, hi, heq, hmin⟩ := ensure_unique_path_probe fs req hex
    exact ⟨i, hi, heq, hmin⟩
  · exact ensure_unique_path_fresh
  · intro fs reqs
    exact ⟨allocSeq_nodup reqs fs, fun r hr => allocSeq_avoids_preexisting reqs fs r hr⟩

/-- Witness for `C6_ensure_unique_path_correct`: a non-existing request is
returned unchanged, and a created sequence over an existing file is
duplicate-free. -/
theorem C6_ensure_unique_path_correct_witness :
    (ensure_unique_path fsC6 "b.txt").1 = "b.txt" ∧
    (allocSeq fsC6 ["a.txt", "a.txt"]).Nodup := by
  have h := C6_ensure_unique_path_correct
  exact ⟨h.1 fsC6 "b.txt" (by decide), (h.2.2.2 fsC6 ["a.txt", "a.txt"]).1⟩

end LKB
